import Mathlib

/-!
Shallow embedding of the TruTops calculation-result parser
(`Scripts/Generacion_Lectura_Calculos/ReadBackCalculations_MultipleParts.py`).

XML element trees (`xml.etree.ElementTree`) are modelled by the mutual
inductive `XmlElem`/`XmlForest` (a forest instead of a nested `List` so that
tree recursion stays structural and kernel-reducible); Python floats by `ℚ`
(every number this pipeline manipulates is a decimal literal, which `float`
represents and combines exactly at the scales involved);
`Element.find(".//A/B")` by a descendant search on the first path segment
followed by child steps, matching ElementPath's compiled selectors.
-/

mutual
/-- An XML element: tag, attribute list (keys unique, insertion order),
optional text, ordered children.  Mirrors `xml.etree.ElementTree.Element`. -/
inductive XmlElem : Type where
  | mk (tag : String) (attrs : List (String × String)) (text : Option String)
      (children : XmlForest)
/-- An ordered list of sibling elements. -/
inductive XmlForest : Type where
  | nil
  | cons (hd : XmlElem) (tl : XmlForest)
end

def XmlForest.toList : XmlForest → List XmlElem
  | .nil => []
  | .cons h t => h :: t.toList

def forestOfList : List XmlElem → XmlForest
  | [] => .nil
  | h :: t => .cons h (forestOfList t)

/-- Element constructor taking the children as a plain list. -/
def xml (tag : String) (attrs : List (String × String)) (text : Option String)
    (children : List XmlElem) : XmlElem :=
  .mk tag attrs text (forestOfList children)

def XmlElem.tag : XmlElem → String
  | .mk t _ _ _ => t

def XmlElem.attrs : XmlElem → List (String × String)
  | .mk _ a _ _ => a

def XmlElem.text : XmlElem → Option String
  | .mk _ _ x _ => x

def XmlElem.children : XmlElem → List XmlElem
  | .mk _ _ _ f => f.toList

mutual
/-- `e.iter()` minus `e` itself: all proper descendants of `e` in document
(preorder) order, how ElementTree's `.//tag` selector enumerates nodes. -/
def XmlElem.iterDesc : XmlElem → List XmlElem
  | .mk _ _ _ f => f.iterDesc
/-- Concatenation of the `iter()` streams of the forest's elements,
each element itself included. -/
def XmlForest.iterDesc : XmlForest → List XmlElem
  | .nil => []
  | .cons h t => h :: (h.iterDesc ++ t.iterDesc)
end

/-- `Element.get(key, default)`: attribute lookup with default. -/
def getAttrD (e : XmlElem) (key dflt : String) : String :=
  match e.attrs.find? (fun p => p.1 == key) with
  | some p => p.2
  | none => dflt

/-- Attribute lookup without default, for the `[@type='...']` selector
(which matches only when the attribute is present with the given value). -/
def getAttrOpt (e : XmlElem) (key : String) : Option String :=
  (e.attrs.find? (fun p => p.1 == key)).map (fun p => p.2)

/-- Children of `e` bearing `tag`, in order (the `/tag` child step). -/
def childrenTagged (tag : String) (e : XmlElem) : List XmlElem :=
  e.children.filter (fun c => c.tag == tag)

/-- `e.findall(".//t₁/t₂/.../tₙ")`: descendants tagged `t₁`, then child
steps for the remaining segments, in ElementPath's enumeration order. -/
def findAllP (e : XmlElem) : List String → List XmlElem
  | [] => []
  | t :: rest =>
      rest.foldl (fun acc tg => acc.flatMap (childrenTagged tg))
        (e.iterDesc.filter (fun d => d.tag == t))

/-- `e.find(".//t₁/.../tₙ")`: first match of `findall`, if any. -/
def find1 (e : XmlElem) (path : List String) : Option XmlElem :=
  (findAllP e path).head?

/-- Split a character list at every occurrence of `sep`, Python
`str.split(sep)` for a one-character separator (so `"" ↦ [""]`). -/
def splitChar (sep : Char) : List Char → List (List Char)
  | [] => [[]]
  | c :: cs =>
      let r := splitChar sep cs
      if c == sep then [] :: r
      else
        match r with
        | [] => [[c]]
        | grp :: gs => (c :: grp) :: gs

/-- Python `needle == hay[:len(needle)]` test used by substring search. -/
def headMatches : List Char → List Char → Bool
  | [], _ => true
  | _ :: _, [] => false
  | a :: as, b :: bs => a == b && headMatches as bs

/-- Python `needle in hay` substring containment. -/
def hasSub (needle : List Char) : List Char → Bool
  | [] => needle.isEmpty
  | b :: bs => headMatches needle (b :: bs) || hasSub needle bs

/-- Python `str.lower()` (ASCII range, which covers every string this
pipeline compares case-insensitively). -/
def toLowerStr (s : String) : String :=
  String.mk (s.data.map Char.toLower)

/-- Python `x or d` for an optional string: `None` and `""` give `d`. -/
def orStr (o : Option String) (dflt : String) : String :=
  match o with
  | some t => if t = "" then dflt else t
  | none => dflt

/-- Read a run of decimal digits: accumulated value, digit count, rest. -/
def readDigitsAux (acc cnt : Nat) : List Char → Nat × Nat × List Char
  | c :: cs =>
      if c.isDigit then readDigitsAux (acc * 10 + (c.toNat - 48)) (cnt + 1) cs
      else (acc, cnt, c :: cs)
  | [] => (acc, cnt, [])

/-- Unsigned decimal literal: digits, optionally one point and more digits,
at least one digit in total, nothing left over. -/
def parseUnsigned (cs : List Char) : Option ℚ :=
  let r1 := readDigitsAux 0 0 cs
  match r1.2.2 with
  | '.' :: r2 =>
      let r3 := readDigitsAux 0 0 r2
      if r3.2.2 = [] && 0 < r1.2.1 + r3.2.1 then
        some ((r1.1 : ℚ) + (r3.1 : ℚ) / ((10 : ℚ) ^ r3.2.1))
      else none
  | [] => if 0 < r1.2.1 then some (r1.1 : ℚ) else none
  | _ => none

/-- Python `float(s)` on plain decimal literals: optional surrounding
whitespace, optional sign, digits with at most one decimal point.  (Exponent,
`inf`/`nan` and non-ASCII digit forms never arise from this pipeline's
inputs and are not modelled: on those this returns `none`.) -/
def pyFloatChars (cs0 : List Char) : Option ℚ :=
  let cs := ((cs0.dropWhile Char.isWhitespace).reverse.dropWhile
    Char.isWhitespace).reverse
  match cs with
  | '-' :: rest => (parseUnsigned rest).map (fun q => -q)
  | '+' :: rest => parseUnsigned rest
  | _ => parseUnsigned cs

/-- `re.sub(r'[^\d.,\-]', '', text.replace(',', '.'))`: swap commas to
periods, then keep only digits, periods, commas and minus signs. -/
def cleanNumericText (t : String) : List Char :=
  (t.data.map (fun c => if c == ',' then '.' else c)).filter
    (fun c => c.isDigit || c == '.' || c == ',' || c == '-')

/-- `TruTopsResultParser.parse_float_value`: safely parse a float from an
XML element's text; a `None` element, missing/empty text, empty cleaned
string or a `float()` failure all give the caller's default. -/
def parse_float_value (element : Option XmlElem) (dflt : ℚ) : ℚ :=
  match element with
  | none => dflt
  | some e =>
    match e.text with
    | none => dflt
    | some t =>
      if t = "" then dflt
      else
        let cleaned := cleanNumericText t
        if cleaned = [] then dflt
        else
          match pyFloatChars cleaned with
          | some v => v
          | none => dflt

/-- `TruTopsResultParser.parse_time_string`: absent or empty text gives
`"00:00:00"`; text containing a colon is truncated at the first period
(`split(".")[0]`); anything else gives `"00:00:00"`. -/
def parse_time_string (time_str : Option String) : String :=
  match time_str with
  | none => "00:00:00"
  | some t =>
    if t = "" then "00:00:00"
    else if t.data.contains ':' then
      String.mk (t.data.takeWhile (fun c => c != '.'))
    else "00:00:00"

/-- `TruTopsResultParser.time_string_to_hours`: `H:M:S` components (seconds
may carry a discarded fractional part) to decimal hours; `""`, `"00:00:00"`,
fewer than three components or any `float()` failure give `0`. -/
def time_string_to_hours (t : String) : ℚ :=
  if t = "" ∨ t = "00:00:00" then 0
  else
    let parts := splitChar ':' t.data
    if 3 ≤ parts.length then
      match pyFloatChars (parts.getD 0 []), pyFloatChars (parts.getD 1 []),
            pyFloatChars ((splitChar '.' (parts.getD 2 [])).headD []) with
      | some h, some m, some sec => h + m / 60 + sec / 3600
      | _, _, _ => 0
    else 0

/-- Python `min(a, b)` on numbers (first argument kept on ties). -/
def pyMin (a b : ℚ) : ℚ := if b < a then b else a

/-- Python `max(a, b)` on numbers (first argument kept on ties). -/
def pyMax (a b : ℚ) : ℚ := if a < b then b else a

/-- Python `int(q)` (truncation toward zero) for a finite float. -/
def ratTruncToInt (q : ℚ) : Int := if 0 ≤ q then q.floor else -((-q).floor)

theorem sanity_time_string : parse_time_string (some "00:30:00.000") = "00:30:00" := by
  decide

theorem sanity_half_hour : time_string_to_hours "00:30:00" = 1 / 2 := by
  with_unfolding_all decide

theorem sanity_half_hour_frac : time_string_to_hours "00:30:00.000" = 1 / 2 := by
  with_unfolding_all decide

theorem sanity_float_period : parse_float_value (some (xml "v" [] (some "0.20") [])) 0 = 1 / 5 := by
  with_unfolding_all decide

theorem sanity_float_comma : parse_float_value (some (xml "v" [] (some "12,5") [])) 0 = 25 / 2 := by
  with_unfolding_all decide

theorem sanity_iterDesc : (xml "a" [] none [xml "b" [] none []]).iterDesc =
    [xml "b" [] none []] := rfl

theorem sanity_find1 : find1 (xml "a" [] none [xml "b" [] none [xml "c" [] (some "t") []]])
    ["b", "c"] = some (xml "c" [] (some "t") []) := rfl

/-- The `CalculationSummary` dataclass: one normalized record per part. -/
structure CalculationSummary where
  filename : String
  part_id : String
  article_no : String
  article_description : String
  part_dimensions_x : ℚ
  part_dimensions_y : ℚ
  part_weight : ℚ
  part_area : ℚ
  cutting_length : ℚ
  material_name : String
  material_thickness : ℚ
  material_cost_per_kg : ℚ
  machine_name : String
  machine_hour_cost : ℚ
  operator_hour_cost : ℚ
  overhead_rate : ℚ
  laser_time : String
  positioning_time : String
  setup_time : String
  pallet_changing_time : String
  total_processing_time : String
  power_consumption_kwh : ℚ
  electricity_cost_per_kwh : ℚ
  electricity_cost_total : ℚ
  compressed_air_consumption : ℚ
  compressed_air_cost_per_nm3 : ℚ
  compressed_air_cost_total : ℚ
  oxygen_consumption : ℚ
  oxygen_cost_per_nm3 : ℚ
  oxygen_cost_total : ℚ
  nitrogen_consumption : ℚ
  nitrogen_cost_per_nm3 : ℚ
  nitrogen_cost_total : ℚ
  argon_consumption : ℚ
  argon_cost_per_nm3 : ℚ
  argon_cost_total : ℚ
  sheet_dimensions_x : ℚ
  sheet_dimensions_y : ℚ
  parts_per_sheet : Nat
  material_utilization : ℚ
  waste_percentage : ℚ
  material_consumption : ℚ
  net_cost_per_piece : ℚ
  gross_cost_per_piece : ℚ
  material_cost_per_piece : ℚ
  processing_cost_per_piece : ℚ
  cost_qty_1 : ℚ
  cost_qty_10 : ℚ
  cost_qty_100 : ℚ
  cost_qty_500 : ℚ
  currency : String
  calculation_date : String
  author_version : String

/-- The dataclass's field defaults (`CalculationSummary()`). -/
def emptySummary : CalculationSummary :=
  { filename := "", part_id := "", article_no := "", article_description := ""
    part_dimensions_x := 0, part_dimensions_y := 0, part_weight := 0
    part_area := 0, cutting_length := 0
    material_name := "", material_thickness := 0, material_cost_per_kg := 0
    machine_name := "", machine_hour_cost := 0, operator_hour_cost := 0
    overhead_rate := 0
    laser_time := "00:00:00", positioning_time := "00:00:00"
    setup_time := "00:00:00", pallet_changing_time := "00:00:00"
    total_processing_time := "00:00:00"
    power_consumption_kwh := 0, electricity_cost_per_kwh := 0
    electricity_cost_total := 0
    compressed_air_consumption := 0, compressed_air_cost_per_nm3 := 0
    compressed_air_cost_total := 0
    oxygen_consumption := 0, oxygen_cost_per_nm3 := 0, oxygen_cost_total := 0
    nitrogen_consumption := 0, nitrogen_cost_per_nm3 := 0
    nitrogen_cost_total := 0
    argon_consumption := 0, argon_cost_per_nm3 := 0, argon_cost_total := 0
    sheet_dimensions_x := 0, sheet_dimensions_y := 0, parts_per_sheet := 0
    material_utilization := 0, waste_percentage := 0, material_consumption := 0
    net_cost_per_piece := 0, gross_cost_per_piece := 0
    material_cost_per_piece := 0, processing_cost_per_piece := 0
    cost_qty_1 := 0, cost_qty_10 := 0, cost_qty_100 := 0, cost_qty_500 := 0
    currency := "EUR", calculation_date := "", author_version := "" }

/-- `TruTopsResultParser.extract_scale_prices`, entry-extraction phase: the
`(quantity, cost)` pairs of all `ScalePriceEntry` descendants with both a
`Quantity` and a `NetcostsAPiece` node, in document order.  The Python key
`f"qty_{qty}"` is represented by the integer `qty` itself. -/
def scalePairs (part : XmlElem) : List (Int × ℚ) :=
  (findAllP part ["ScalePriceEntry"]).filterMap (fun entry =>
    match find1 entry ["Quantity"], find1 entry ["NetcostsAPiece"] with
    | some q, some c =>
        some (ratTruncToInt (parse_float_value (some q) 0),
          parse_float_value (some c) 0)
    | _, _ => none)

/-- Insert into an association list with dict semantics: an existing key's
value is overwritten in place. -/
def dictInsert (k : Int) (v : ℚ) : List (Int × ℚ) → List (Int × ℚ)
  | [] => [(k, v)]
  | p :: rest => if p.1 = k then (p.1, v) :: rest else p :: dictInsert k v rest

/-- `dict.get(k, dflt)`. -/
def dictGet (d : List (Int × ℚ)) (k : Int) (dflt : ℚ) : ℚ :=
  match d.find? (fun p => p.1 == k) with
  | some p => p.2
  | none => dflt

/-- `TruTopsResultParser.extract_scale_prices`: the dictionary built by
inserting each extracted pair in document order (later duplicates of a
quantity overwrite earlier ones). -/
def extract_scale_prices (part : XmlElem) : List (Int × ℚ) :=
  (scalePairs part).foldl (fun d p => dictInsert p.1 p.2 d) []

/-- "If the element was found, fold its value into the summary": the shape
of every `if x is not None: summary.field = ...` statement in the source. -/
def updOpt {β : Type} (o : Option β)
    (f : β → CalculationSummary → CalculationSummary)
    (s : CalculationSummary) : CalculationSummary :=
  match o with
  | some e => f e s
  | none => s

/-- `parse_single_part`, "Basic file information" and "Currency information"
blocks: calculation date, author version and currency from the root. -/
def rootInfoStage (root : XmlElem) (s0 : CalculationSummary) :
    CalculationSummary :=
  let s1 := updOpt (find1 root ["datetime"])
    (fun e s => { s with calculation_date := (e.text).getD "" }) s0
  let s2 := updOpt (find1 root ["author"])
    (fun e s => { s with author_version := getAttrD e "authorversion" "" }) s1
  updOpt (find1 root ["Options"])
    (fun e s => { s with currency := getAttrD e "BaseCurrency" "EUR" }) s2

/-- `parse_single_part`, "Article information" block. -/
def articleStage (part : XmlElem) (s0 : CalculationSummary) :
    CalculationSummary :=
  let s1 := updOpt (find1 part ["ArticleNo"])
    (fun e s => { s with article_no := (e.text).getD "" }) s0
  updOpt (find1 part ["ArticleDescription"])
    (fun e s => { s with article_description := (e.text).getD "" }) s1

/-- `parse_single_part`, "Material information" block. -/
def materialStage (part : XmlElem) (s0 : CalculationSummary) :
    CalculationSummary :=
  updOpt (find1 part ["Material"]) (fun mat s =>
    let s1 := updOpt (find1 mat ["MaterialName"])
      (fun e t => { t with material_name := (e.text).getD "" }) s
    updOpt (find1 mat ["MaterialThickness"])
      (fun e t => { t with material_thickness := parse_float_value (some e) 0 }) s1) s0

/-- `parse_single_part`, "Material costs" block. -/
def materialCostStage (part : XmlElem) (s0 : CalculationSummary) :
    CalculationSummary :=
  updOpt (find1 part ["BasicMaterialGroupCosts", "metric_qty"])
    (fun e s => { s with material_cost_per_kg := parse_float_value (some e) 0 }) s0

/-- `parse_single_part`, "Part information" block: primary dimensions,
weight, area and cutting length from `PartInformation`. -/
def partInfoStage (part : XmlElem) (s0 : CalculationSummary) :
    CalculationSummary :=
  updOpt (find1 part ["PartInformation"]) (fun pinfo s =>
    let s1 := updOpt (find1 pinfo ["SizeX"])
      (fun e t => { t with part_dimensions_x := parse_float_value (some e) 0 }) s
    let s2 := updOpt (find1 pinfo ["SizeY"])
      (fun e t => { t with part_dimensions_y := parse_float_value (some e) 0 }) s1
    let s3 := updOpt (find1 pinfo ["PartWeight"])
      (fun e t => { t with part_weight := parse_float_value (some e) 0 }) s2
    let s4 := updOpt (find1 pinfo ["PartArea"])
      (fun e t => { t with part_area := parse_float_value (some e) 0 }) s3
    updOpt (find1 pinfo ["CuttingLength"])
      (fun e t => { t with cutting_length := parse_float_value (some e) 0 }) s4) s0

/-- `parse_single_part`, `ApproxGeometry` fallback block: if either planar
dimension is `0.0`, try the approximate-geometry contour's third/fourth
parameters, each only replacing a dimension that is still `0.0`. -/
def dimFallbackStage (part : XmlElem) (s0 : CalculationSummary) :
    CalculationSummary :=
  if s0.part_dimensions_x = 0 ∨ s0.part_dimensions_y = 0 then
    updOpt (find1 part ["ApproxGeometry", "outside", "contour"]) (fun geom s =>
      let s1 := updOpt (find1 geom ["parameter_3", "val"]) (fun p3 t =>
        if t.part_dimensions_x = 0 then
          { t with part_dimensions_x := parse_float_value (some p3) 0 }
        else t) s
      updOpt (find1 geom ["parameter_4", "val"]) (fun p4 t =>
        if t.part_dimensions_y = 0 then
          { t with part_dimensions_y := parse_float_value (some p4) 0 }
        else t) s1) s0
  else s0

/-- `parse_single_part`, working-step rates sub-block: the three hourly
rates read from a `WorkPlaceData` node. -/
def workPlaceBlock (wpd : XmlElem) (s0 : CalculationSummary) :
    CalculationSummary :=
  let a := updOpt (find1 wpd ["MachineHourCosts", "Value", "metric_qty"])
    (fun e s => { s with machine_hour_cost := parse_float_value (some e) 0 }) s0
  let b := updOpt (find1 wpd ["HourlyRate", "Value", "metric_qty"])
    (fun e s => { s with operator_hour_cost := parse_float_value (some e) 0 }) a
  updOpt (find1 wpd ["OverheadRate", "metric_qty"])
    (fun e s => { s with overhead_rate := parse_float_value (some e) 0 }) b

/-- `parse_single_part`, processing-times sub-block: the four duration
fields read from a `TargetProcessingTimeData` node. -/
def timeDataBlock (td : XmlElem) (s0 : CalculationSummary) :
    CalculationSummary :=
  let a := updOpt (find1 td ["LaserTime"])
    (fun e s => { s with laser_time := parse_time_string e.text }) s0
  let b := updOpt (find1 td ["PositioningTime"])
    (fun e s => { s with positioning_time := parse_time_string e.text }) a
  let c := updOpt (find1 td ["SetupTime"])
    (fun e s => { s with setup_time := parse_time_string e.text }) b
  updOpt (find1 td ["PalletChangingTime"])
    (fun e s => { s with pallet_changing_time := parse_time_string e.text }) c

/-- `parse_single_part`, "Working step information" block: machine name,
hourly rates and the five duration fields. -/
def workingStepStage (part : XmlElem) (s0 : CalculationSummary) :
    CalculationSummary :=
  updOpt (find1 part ["WorkingStep"]) (fun ws s =>
    let s1 := updOpt (find1 ws ["WorkStepName"])
      (fun e t => { t with machine_name := (e.text).getD "" }) s
    let s2 := updOpt (find1 ws ["WorkPlaceData"]) workPlaceBlock s1
    let s3 := updOpt (find1 ws ["TargetProcessingTimeData"]) timeDataBlock s2
    updOpt (find1 ws ["TargetProcessingTime"])
      (fun e t => { t with total_processing_time := parse_time_string e.text }) s3) s0

/-- `parse_single_part`, "Cost information" block: net and gross cost per
piece from `SalesPrices/OrderPrice`. -/
def costStage (part : XmlElem) (s0 : CalculationSummary) :
    CalculationSummary :=
  updOpt (find1 part ["SalesPrices", "OrderPrice"]) (fun sp s =>
    let s1 := updOpt (find1 sp ["NetcostsAPiece"])
      (fun e t => { t with net_cost_per_piece := parse_float_value (some e) 0 }) s
    updOpt (find1 sp ["GrosscostsAPiece"])
      (fun e t => { t with gross_cost_per_piece := parse_float_value (some e) 0 }) s1) s0

/-- `parse_single_part`, "Scale prices" block: quantity-1 slot falls back to
the net cost per piece, the other breakpoints to `0.0`. -/
def scalePriceStage (part : XmlElem) (s0 : CalculationSummary) :
    CalculationSummary :=
  let sp := extract_scale_prices part
  { s0 with
    cost_qty_1 := dictGet sp 1 s0.net_cost_per_piece
    cost_qty_10 := dictGet sp 10 0
    cost_qty_100 := dictGet sp 100 0
    cost_qty_500 := dictGet sp 500 0 }

/-- `calculate_energy_and_gas_consumption`, operator block: unit costs for
electricity and the four gases from `OrderData/Operator`. -/
def operatorCostsBlock (root : XmlElem) (s0 : CalculationSummary) :
    CalculationSummary :=
  updOpt (find1 root ["OrderData", "Operator"]) (fun op s =>
    let a := updOpt (find1 op ["ElectricEnergyCosts", "metric_qty"])
      (fun e t => { t with electricity_cost_per_kwh := parse_float_value (some e) 0 }) s
    let b := updOpt (find1 op ["CompressedAir", "Costs", "metric_qty"])
      (fun e t => { t with compressed_air_cost_per_nm3 := parse_float_value (some e) 0 }) a
    let c := updOpt (find1 op ["Oxygen", "Costs", "metric_qty"])
      (fun e t => { t with oxygen_cost_per_nm3 := parse_float_value (some e) 0 }) b
    let d := updOpt (find1 op ["Nitrogen", "Costs", "metric_qty"])
      (fun e t => { t with nitrogen_cost_per_nm3 := parse_float_value (some e) 0 }) c
    updOpt (find1 op ["Argon", "Costs", "metric_qty"])
      (fun e t => { t with argon_cost_per_nm3 := parse_float_value (some e) 0 }) d) s0

/-- `calculate_energy_and_gas_consumption`, laser-machine block: if both
power ratings and the working step's laser time are present, the power draw
is the mean of the 1%- and 100%-duty ratings, energy is draw × laser hours,
and electricity cost is energy × the configured unit cost. -/
def electricityBlock (part : XmlElem) (s0 : CalculationSummary) :
    CalculationSummary :=
  updOpt (find1 part ["LaserMachine"]) (fun lm s =>
    updOpt (find1 lm ["Power100Percent"]) (fun p100 t =>
      updOpt (find1 lm ["Power1Percent"]) (fun p1 u =>
        let max_power_kw := parse_float_value (some p100) 0
        let min_power_kw := parse_float_value (some p1) 0
        updOpt (find1 part ["WorkingStep"]) (fun ws v =>
          updOpt (find1 ws ["TargetProcessingTimeData"]) (fun td w =>
            updOpt (find1 td ["LaserTime"]) (fun lt x =>
              let laser_hours := time_string_to_hours (orStr lt.text "00:00:00")
              let avg_power_kw := (max_power_kw + min_power_kw) / 2
              let x1 := { x with
                power_consumption_kwh := avg_power_kw * laser_hours }
              { x1 with electricity_cost_total :=
                  x1.power_consumption_kwh * x1.electricity_cost_per_kwh }) w) v) u) t) s) s0

/-- `calculate_energy_and_gas_consumption`, gas-estimate block: compressed
air at 10 Nm³ per laser-hour; then, mutually exclusively, nitrogen for
stainless-marked material (`"stainless"` in the lowered name or `"1.43"` in
the name) at rate `clamp(thickness × 0.3, 0.5, 3.0)`, else oxygen for
carbon-marked material or thickness below 3 mm at rate
`clamp(thickness × 0.2, 0.3, 2.0)`. -/
def gasBlock (s0 : CalculationSummary) : CalculationSummary :=
  if s0.laser_time ≠ "" ∧ s0.laser_time ≠ "00:00:00" then
    let laser_hours := time_string_to_hours s0.laser_time
    if 0 < laser_hours then
      let s1 := { s0 with compressed_air_consumption := laser_hours * 10 }
      let s2 := { s1 with compressed_air_cost_total :=
        s1.compressed_air_consumption * s1.compressed_air_cost_per_nm3 }
      let material_thickness := s2.material_thickness
      if hasSub "stainless".data (toLowerStr s2.material_name).data ∨
          hasSub "1.43".data s2.material_name.data then
        let nitrogen_rate :=
          pyMax (1 / 2) (pyMin 3 (material_thickness * (3 / 10)))
        let s3 := { s2 with nitrogen_consumption := laser_hours * nitrogen_rate }
        { s3 with nitrogen_cost_total :=
            s3.nitrogen_consumption * s3.nitrogen_cost_per_nm3 }
      else if hasSub "carbon".data (toLowerStr s2.material_name).data ∨
          material_thickness < 3 then
        let oxygen_rate :=
          pyMax (3 / 10) (pyMin 2 (material_thickness * (1 / 5)))
        let s3 := { s2 with oxygen_consumption := laser_hours * oxygen_rate }
        { s3 with oxygen_cost_total :=
            s3.oxygen_consumption * s3.oxygen_cost_per_nm3 }
      else s2
    else s0
  else s0

/-- `TruTopsResultParser.calculate_energy_and_gas_consumption`: operator
unit costs, then electricity, then the gas estimates. -/
def calculate_energy_and_gas_consumption (root part : XmlElem)
    (s0 : CalculationSummary) : CalculationSummary :=
  gasBlock (electricityBlock part (operatorCostsBlock root s0))

/-- `parse_single_part`, "Nesting information" block: sheet dimensions from
the allocation's `sheet-id` (last two `"x"`-separated tokens) and the part
count from its `pos` nodes. -/
def nestingStage (root : XmlElem) (s0 : CalculationSummary) :
    CalculationSummary :=
  updOpt (find1 root ["nesting"]) (fun nst s =>
    updOpt (find1 nst ["allocation"]) (fun alloc t =>
      let sheet_id := getAttrD alloc "sheet-id" ""
      let t1 :=
        if sheet_id.data.contains 'x' then
          let toks := splitChar 'x' sheet_id.data
          if 3 ≤ toks.length then
            updOpt (pyFloatChars (toks.getD (toks.length - 2) [])) (fun vx u =>
              let u1 := { u with sheet_dimensions_x := vx }
              updOpt (pyFloatChars (toks.getD (toks.length - 1) []))
                (fun vy w => { w with sheet_dimensions_y := vy }) u1) t
          else t
        else t
      { t1 with parts_per_sheet := (findAllP alloc ["pos"]).length }) s) s0

/-- `parse_single_part`, `sheetData` block: material consumption. -/
def sheetDataStage (root : XmlElem) (s0 : CalculationSummary) :
    CalculationSummary :=
  updOpt (find1 root ["sheetData"]) (fun sd s =>
    updOpt (find1 sd ["materialConsumption", "value"])
      (fun e t => { t with material_consumption := parse_float_value (some e) 0 }) s) s0

/-- `parse_single_part`, waste block: waste percentage from `waste/value`
and material utilization derived as `100 - waste`. -/
def wasteStage (root : XmlElem) (s0 : CalculationSummary) :
    CalculationSummary :=
  updOpt (find1 root ["waste", "value"]) (fun e s =>
    let s1 := { s with waste_percentage := parse_float_value (some e) 0 }
    { s1 with material_utilization := 100 - s1.waste_percentage }) s0

/-- `parse_single_part`'s freshly created summary: the dataclass defaults
plus the filename and the part's `ID` attribute. -/
def initSummary (part : XmlElem) (filename : String) : CalculationSummary :=
  { emptySummary with filename := filename, part_id := getAttrD part "ID" "" }

/-- `TruTopsResultParser.parse_single_part`: assemble one record for `part`
inside the document `root`, mirroring the Python statement order. -/
def parse_single_part (root part : XmlElem) (filename : String) :
    CalculationSummary :=
  let s0 := initSummary part filename
  wasteStage root (sheetDataStage root (nestingStage root
    (calculate_energy_and_gas_consumption root part
      (scalePriceStage part (costStage part (workingStepStage part
        (dimFallbackStage part (partInfoStage part (materialCostStage part
          (materialStage part (articleStage part (rootInfoStage root s0))))))))))))

/-- `root.findall(".//Part[@type='sheetmetalpart']")`: the candidate part
subtrees of a document. -/
def sheetmetalParts (root : XmlElem) : List XmlElem :=
  root.iterDesc.filter
    (fun p => p.tag == "Part" && getAttrOpt p "type" == some "sheetmetalpart")

/-- `parse_calculation_file`'s first skip test: the declared article number
lowercases to one of the order-placeholder synonyms. -/
def isOrderArticle (part : XmlElem) : Bool :=
  match find1 part ["ArticleNo"] with
  | some e => ["order", "pedido", "auftrag"].contains (toLowerStr ((e.text).getD ""))
  | none => false

/-- `parse_calculation_file`'s second skip test: the
`ProcessingTechnology="NONE"` root/order sentinel. -/
def hasNoTech (part : XmlElem) : Bool :=
  getAttrD part "ProcessingTechnology" "" == "NONE"

/-- `parse_calculation_file`'s emission test ("only add if it has some
useful data"): a non-empty article number or a positive net cost. -/
def hasUsefulData (s : CalculationSummary) : Bool :=
  s.article_no != "" || decide (0 < s.net_cost_per_piece)

/-- `TruTopsResultParser.parse_calculation_file` on an already-parsed tree:
loop over the candidate parts, skipping order pseudo-parts and appending
each assembled record that carries useful data. -/
def parse_calculation_file (root : XmlElem) (filename : String) :
    List CalculationSummary :=
  (sheetmetalParts root).foldl
    (fun acc part =>
      if isOrderArticle part then acc
      else if hasNoTech part then acc
      else
        let s := parse_single_part root part filename
        if hasUsefulData s then acc ++ [s] else acc)
    []

set_option linter.unreachableTactic false
set_option linter.unusedTactic false

/-! Frame lemmas.  `updOpt_<field>` lifts "the folded function does not touch
the field" through one optional update; the per-stage lemmas then record that
each assembly stage leaves every field it does not write unchanged. -/

theorem updOpt_article_no {β : Type} (o : Option β)
    (g : β → CalculationSummary → CalculationSummary) (s : CalculationSummary)
    (h : ∀ e t, (g e t).article_no = t.article_no) :
    (updOpt o g s).article_no = s.article_no := by
  cases o with
  | none => rfl
  | some e => exact h e s

theorem updOpt_net_cost_per_piece {β : Type} (o : Option β)
    (g : β → CalculationSummary → CalculationSummary) (s : CalculationSummary)
    (h : ∀ e t, (g e t).net_cost_per_piece = t.net_cost_per_piece) :
    (updOpt o g s).net_cost_per_piece = s.net_cost_per_piece := by
  cases o with
  | none => rfl
  | some e => exact h e s

theorem updOpt_cost_qty_1 {β : Type} (o : Option β)
    (g : β → CalculationSummary → CalculationSummary) (s : CalculationSummary)
    (h : ∀ e t, (g e t).cost_qty_1 = t.cost_qty_1) :
    (updOpt o g s).cost_qty_1 = s.cost_qty_1 := by
  cases o with
  | none => rfl
  | some e => exact h e s

theorem updOpt_cost_qty_10 {β : Type} (o : Option β)
    (g : β → CalculationSummary → CalculationSummary) (s : CalculationSummary)
    (h : ∀ e t, (g e t).cost_qty_10 = t.cost_qty_10) :
    (updOpt o g s).cost_qty_10 = s.cost_qty_10 := by
  cases o with
  | none => rfl
  | some e => exact h e s

theorem updOpt_cost_qty_100 {β : Type} (o : Option β)
    (g : β → CalculationSummary → CalculationSummary) (s : CalculationSummary)
    (h : ∀ e t, (g e t).cost_qty_100 = t.cost_qty_100) :
    (updOpt o g s).cost_qty_100 = s.cost_qty_100 := by
  cases o with
  | none => rfl
  | some e => exact h e s

theorem updOpt_cost_qty_500 {β : Type} (o : Option β)
    (g : β → CalculationSummary → CalculationSummary) (s : CalculationSummary)
    (h : ∀ e t, (g e t).cost_qty_500 = t.cost_qty_500) :
    (updOpt o g s).cost_qty_500 = s.cost_qty_500 := by
  cases o with
  | none => rfl
  | some e => exact h e s

theorem updOpt_part_dimensions_x {β : Type} (o : Option β)
    (g : β → CalculationSummary → CalculationSummary) (s : CalculationSummary)
    (h : ∀ e t, (g e t).part_dimensions_x = t.part_dimensions_x) :
    (updOpt o g s).part_dimensions_x = s.part_dimensions_x := by
  cases o with
  | none => rfl
  | some e => exact h e s

theorem updOpt_part_dimensions_y {β : Type} (o : Option β)
    (g : β → CalculationSummary → CalculationSummary) (s : CalculationSummary)
    (h : ∀ e t, (g e t).part_dimensions_y = t.part_dimensions_y) :
    (updOpt o g s).part_dimensions_y = s.part_dimensions_y := by
  cases o with
  | none => rfl
  | some e => exact h e s

theorem updOpt_oxygen_consumption {β : Type} (o : Option β)
    (g : β → CalculationSummary → CalculationSummary) (s : CalculationSummary)
    (h : ∀ e t, (g e t).oxygen_consumption = t.oxygen_consumption) :
    (updOpt o g s).oxygen_consumption = s.oxygen_consumption := by
  cases o with
  | none => rfl
  | some e => exact h e s

theorem updOpt_nitrogen_consumption {β : Type} (o : Option β)
    (g : β → CalculationSummary → CalculationSummary) (s : CalculationSummary)
    (h : ∀ e t, (g e t).nitrogen_consumption = t.nitrogen_consumption) :
    (updOpt o g s).nitrogen_consumption = s.nitrogen_consumption := by
  cases o with
  | none => rfl
  | some e => exact h e s

theorem updOpt_power_consumption_kwh {β : Type} (o : Option β)
    (g : β → CalculationSummary → CalculationSummary) (s : CalculationSummary)
    (h : ∀ e t, (g e t).power_consumption_kwh = t.power_consumption_kwh) :
    (updOpt o g s).power_consumption_kwh = s.power_consumption_kwh := by
  cases o with
  | none => rfl
  | some e => exact h e s

theorem updOpt_electricity_cost_total {β : Type} (o : Option β)
    (g : β → CalculationSummary → CalculationSummary) (s : CalculationSummary)
    (h : ∀ e t, (g e t).electricity_cost_total = t.electricity_cost_total) :
    (updOpt o g s).electricity_cost_total = s.electricity_cost_total := by
  cases o with
  | none => rfl
  | some e => exact h e s

theorem updOpt_electricity_cost_per_kwh {β : Type} (o : Option β)
    (g : β → CalculationSummary → CalculationSummary) (s : CalculationSummary)
    (h : ∀ e t, (g e t).electricity_cost_per_kwh = t.electricity_cost_per_kwh) :
    (updOpt o g s).electricity_cost_per_kwh = s.electricity_cost_per_kwh := by
  cases o with
  | none => rfl
  | some e => exact h e s

theorem updOpt_waste_percentage {β : Type} (o : Option β)
    (g : β → CalculationSummary → CalculationSummary) (s : CalculationSummary)
    (h : ∀ e t, (g e t).waste_percentage = t.waste_percentage) :
    (updOpt o g s).waste_percentage = s.waste_percentage := by
  cases o with
  | none => rfl
  | some e => exact h e s

theorem updOpt_material_utilization {β : Type} (o : Option β)
    (g : β → CalculationSummary → CalculationSummary) (s : CalculationSummary)
    (h : ∀ e t, (g e t).material_utilization = t.material_utilization) :
    (updOpt o g s).material_utilization = s.material_utilization := by
  cases o with
  | none => rfl
  | some e => exact h e s

@[simp] theorem rootInfoStage_article_no (root : XmlElem) (s : CalculationSummary) :
    (rootInfoStage root s).article_no = s.article_no := by
  unfold rootInfoStage
  repeat' first
  | rfl
  | (intro e t)
  | rw [updOpt_article_no]
  | (dsimp only)
  | split

@[simp] theorem rootInfoStage_net_cost_per_piece (root : XmlElem) (s : CalculationSummary) :
    (rootInfoStage root s).net_cost_per_piece = s.net_cost_per_piece := by
  unfold rootInfoStage
  repeat' first
  | rfl
  | (intro e t)
  | rw [updOpt_net_cost_per_piece]
  | (dsimp only)
  | split

@[simp] theorem rootInfoStage_cost_qty_1 (root : XmlElem) (s : CalculationSummary) :
    (rootInfoStage root s).cost_qty_1 = s.cost_qty_1 := by
  unfold rootInfoStage
  repeat' first
  | rfl
  | (intro e t)
  | rw [updOpt_cost_qty_1]
  | (dsimp only)
  | split

@[simp] theorem rootInfoStage_cost_qty_10 (root : XmlElem) (s : CalculationSummary) :
    (rootInfoStage root s).cost_qty_10 = s.cost_qty_10 := by
  unfold rootInfoStage
  repeat' first
  | rfl
  | (intro e t)
  | rw [updOpt_cost_qty_10]
  | (dsimp only)
  | split

@[simp] theorem rootInfoStage_cost_qty_100 (root : XmlElem) (s : CalculationSummary) :
    (rootInfoStage root s).cost_qty_100 = s.cost_qty_100 := by
  unfold rootInfoStage
  repeat' first
  | rfl
  | (intro e t)
  | rw [updOpt_cost_qty_100]
  | (dsimp only)
  | split

@[simp] theorem rootInfoStage_cost_qty_500 (root : XmlElem) (s : CalculationSummary) :
    (rootInfoStage root s).cost_qty_500 = s.cost_qty_500 := by
  unfold rootInfoStage
  repeat' first
  | rfl
  | (intro e t)
  | rw [updOpt_cost_qty_500]
  | (dsimp only)
  | split

@[simp] theorem rootInfoStage_part_dimensions_x (root : XmlElem) (s : CalculationSummary) :
    (rootInfoStage root s).part_dimensions_x = s.part_dimensions_x := by
  unfold rootInfoStage
  repeat' first
  | rfl
  | (intro e t)
  | rw [updOpt_part_dimensions_x]
  | (dsimp only)
  | split

@[simp] theorem rootInfoStage_part_dimensions_y (root : XmlElem) (s : CalculationSummary) :
    (rootInfoStage root s).part_dimensions_y = s.part_dimensions_y := by
  unfold rootInfoStage
  repeat' first
  | rfl
  | (intro e t)
  | rw [updOpt_part_dimensions_y]
  | (dsimp only)
  | split

@[simp] theorem rootInfoStage_oxygen_consumption (root : XmlElem) (s : CalculationSummary) :
    (rootInfoStage root s).oxygen_consumption = s.oxygen_consumption := by
  unfold rootInfoStage
  repeat' first
  | rfl
  | (intro e t)
  | rw [updOpt_oxygen_consumption]
  | (dsimp only)
  | split

@[simp] theorem rootInfoStage_nitrogen_consumption (root : XmlElem) (s : CalculationSummary) :
    (rootInfoStage root s).nitrogen_consumption = s.nitrogen_consumption := by
  unfold rootInfoStage
  repeat' first
  | rfl
  | (intro e t)
  | rw [updOpt_nitrogen_consumption]
  | (dsimp only)
  | split

@[simp] theorem rootInfoStage_power_consumption_kwh (root : XmlElem) (s : CalculationSummary) :
    (rootInfoStage root s).power_consumption_kwh = s.power_consumption_kwh := by
  unfold rootInfoStage
  repeat' first
  | rfl
  | (intro e t)
  | rw [updOpt_power_consumption_kwh]
  | (dsimp only)
  | split

@[simp] theorem rootInfoStage_electricity_cost_total (root : XmlElem) (s : CalculationSummary) :
    (rootInfoStage root s).electricity_cost_total = s.electricity_cost_total := by
  unfold rootInfoStage
  repeat' first
  | rfl
  | (intro e t)
  | rw [updOpt_electricity_cost_total]
  | (dsimp only)
  | split

@[simp] theorem rootInfoStage_electricity_cost_per_kwh (root : XmlElem) (s : CalculationSummary) :
    (rootInfoStage root s).electricity_cost_per_kwh = s.electricity_cost_per_kwh := by
  unfold rootInfoStage
  repeat' first
  | rfl
  | (intro e t)
  | rw [updOpt_electricity_cost_per_kwh]
  | (dsimp only)
  | split

@[simp] theorem rootInfoStage_waste_percentage (root : XmlElem) (s : CalculationSummary) :
    (rootInfoStage root s).waste_percentage = s.waste_percentage := by
  unfold rootInfoStage
  repeat' first
  | rfl
  | (intro e t)
  | rw [updOpt_waste_percentage]
  | (dsimp only)
  | split

@[simp] theorem rootInfoStage_material_utilization (root : XmlElem) (s : CalculationSummary) :
    (rootInfoStage root s).material_utilization = s.material_utilization := by
  unfold rootInfoStage
  repeat' first
  | rfl
  | (intro e t)
  | rw [updOpt_material_utilization]
  | (dsimp only)
  | split

@[simp] theorem articleStage_net_cost_per_piece (part : XmlElem) (s : CalculationSummary) :
    (articleStage part s).net_cost_per_piece = s.net_cost_per_piece := by
  unfold articleStage
  repeat' first
  | rfl
  | (intro e t)
  | rw [updOpt_net_cost_per_piece]
  | (dsimp only)
  | split

@[simp] theorem articleStage_cost_qty_1 (part : XmlElem) (s : CalculationSummary) :
    (articleStage part s).cost_qty_1 = s.cost_qty_1 := by
  unfold articleStage
  repeat' first
  | rfl
  | (intro e t)
  | rw [updOpt_cost_qty_1]
  | (dsimp only)
  | split

@[simp] theorem articleStage_cost_qty_10 (part : XmlElem) (s : CalculationSummary) :
    (articleStage part s).cost_qty_10 = s.cost_qty_10 := by
  unfold articleStage
  repeat' first
  | rfl
  | (intro e t)
  | rw [updOpt_cost_qty_10]
  | (dsimp only)
  | split

@[simp] theorem articleStage_cost_qty_100 (part : XmlElem) (s : CalculationSummary) :
    (articleStage part s).cost_qty_100 = s.cost_qty_100 := by
  unfold articleStage
  repeat' first
  | rfl
  | (intro e t)
  | rw [updOpt_cost_qty_100]
  | (dsimp only)
  | split

@[simp] theorem articleStage_cost_qty_500 (part : XmlElem) (s : CalculationSummary) :
    (articleStage part s).cost_qty_500 = s.cost_qty_500 := by
  unfold articleStage
  repeat' first
  | rfl
  | (intro e t)
  | rw [updOpt_cost_qty_500]
  | (dsimp only)
  | split

@[simp] theorem articleStage_part_dimensions_x (part : XmlElem) (s : CalculationSummary) :
    (articleStage part s).part_dimensions_x = s.part_dimensions_x := by
  unfold articleStage
  repeat' first
  | rfl
  | (intro e t)
  | rw [updOpt_part_dimensions_x]
  | (dsimp only)
  | split

@[simp] theorem articleStage_part_dimensions_y (part : XmlElem) (s : CalculationSummary) :
    (articleStage part s).part_dimensions_y = s.part_dimensions_y := by
  unfold articleStage
  repeat' first
  | rfl
  | (intro e t)
  | rw [updOpt_part_dimensions_y]
  | (dsimp only)
  | split

@[simp] theorem articleStage_oxygen_consumption (part : XmlElem) (s : CalculationSummary) :
    (articleStage part s).oxygen_consumption = s.oxygen_consumption := by
  unfold articleStage
  repeat' first
  | rfl
  | (intro e t)
  | rw [updOpt_oxygen_consumption]
  | (dsimp only)
  | split

@[simp] theorem articleStage_nitrogen_consumption (part : XmlElem) (s : CalculationSummary) :
    (articleStage part s).nitrogen_consumption = s.nitrogen_consumption := by
  unfold articleStage
  repeat' first
  | rfl
  | (intro e t)
  | rw [updOpt_nitrogen_consumption]
  | (dsimp only)
  | split

@[simp] theorem articleStage_power_consumption_kwh (part : XmlElem) (s : CalculationSummary) :
    (articleStage part s).power_consumption_kwh = s.power_consumption_kwh := by
  unfold articleStage
  repeat' first
  | rfl
  | (intro e t)
  | rw [updOpt_power_consumption_kwh]
  | (dsimp only)
  | split

@[simp] theorem articleStage_electricity_cost_total (part : XmlElem) (s : CalculationSummary) :
    (articleStage part s).electricity_cost_total = s.electricity_cost_total := by
  unfold articleStage
  repeat' first
  | rfl
  | (intro e t)
  | rw [updOpt_electricity_cost_total]
  | (dsimp only)
  | split

@[simp] theorem articleStage_electricity_cost_per_kwh (part : XmlElem) (s : CalculationSummary) :
    (articleStage part s).electricity_cost_per_kwh = s.electricity_cost_per_kwh := by
  unfold articleStage
  repeat' first
  | rfl
  | (intro e t)
  | rw [updOpt_electricity_cost_per_kwh]
  | (dsimp only)
  | split

@[simp] theorem articleStage_waste_percentage (part : XmlElem) (s : CalculationSummary) :
    (articleStage part s).waste_percentage = s.waste_percentage := by
  unfold articleStage
  repeat' first
  | rfl
  | (intro e t)
  | rw [updOpt_waste_percentage]
  | (dsimp only)
  | split

@[simp] theorem articleStage_material_utilization (part : XmlElem) (s : CalculationSummary) :
    (articleStage part s).material_utilization = s.material_utilization := by
  unfold articleStage
  repeat' first
  | rfl
  | (intro e t)
  | rw [updOpt_material_utilization]
  | (dsimp only)
  | split

@[simp] theorem materialStage_article_no (part : XmlElem) (s : CalculationSummary) :
    (materialStage part s).article_no = s.article_no := by
  unfold materialStage
  repeat' first
  | rfl
  | (intro e t)
  | rw [updOpt_article_no]
  | (dsimp only)
  | split

@[simp] theorem materialStage_net_cost_per_piece (part : XmlElem) (s : CalculationSummary) :
    (materialStage part s).net_cost_per_piece = s.net_cost_per_piece := by
  unfold materialStage
  repeat' first
  | rfl
  | (intro e t)
  | rw [updOpt_net_cost_per_piece]
  | (dsimp only)
  | split

@[simp] theorem materialStage_cost_qty_1 (part : XmlElem) (s : CalculationSummary) :
    (materialStage part s).cost_qty_1 = s.cost_qty_1 := by
  unfold materialStage
  repeat' first
  | rfl
  | (intro e t)
  | rw [updOpt_cost_qty_1]
  | (dsimp only)
  | split

@[simp] theorem materialStage_cost_qty_10 (part : XmlElem) (s : CalculationSummary) :
    (materialStage part s).cost_qty_10 = s.cost_qty_10 := by
  unfold materialStage
  repeat' first
  | rfl
  | (intro e t)
  | rw [updOpt_cost_qty_10]
  | (dsimp only)
  | split

@[simp] theorem materialStage_cost_qty_100 (part : XmlElem) (s : CalculationSummary) :
    (materialStage part s).cost_qty_100 = s.cost_qty_100 := by
  unfold materialStage
  repeat' first
  | rfl
  | (intro e t)
  | rw [updOpt_cost_qty_100]
  | (dsimp only)
  | split

@[simp] theorem materialStage_cost_qty_500 (part : XmlElem) (s : CalculationSummary) :
    (materialStage part s).cost_qty_500 = s.cost_qty_500 := by
  unfold materialStage
  repeat' first
  | rfl
  | (intro e t)
  | rw [updOpt_cost_qty_500]
  | (dsimp only)
  | split

@[simp] theorem materialStage_part_dimensions_x (part : XmlElem) (s : CalculationSummary) :
    (materialStage part s).part_dimensions_x = s.part_dimensions_x := by
  unfold materialStage
  repeat' first
  | rfl
  | (intro e t)
  | rw [updOpt_part_dimensions_x]
  | (dsimp only)
  | split

@[simp] theorem materialStage_part_dimensions_y (part : XmlElem) (s : CalculationSummary) :
    (materialStage part s).part_dimensions_y = s.part_dimensions_y := by
  unfold materialStage
  repeat' first
  | rfl
  | (intro e t)
  | rw [updOpt_part_dimensions_y]
  | (dsimp only)
  | split

@[simp] theorem materialStage_oxygen_consumption (part : XmlElem) (s : CalculationSummary) :
    (materialStage part s).oxygen_consumption = s.oxygen_consumption := by
  unfold materialStage
  repeat' first
  | rfl
  | (intro e t)
  | rw [updOpt_oxygen_consumption]
  | (dsimp only)
  | split

@[simp] theorem materialStage_nitrogen_consumption (part : XmlElem) (s : CalculationSummary) :
    (materialStage part s).nitrogen_consumption = s.nitrogen_consumption := by
  unfold materialStage
  repeat' first
  | rfl
  | (intro e t)
  | rw [updOpt_nitrogen_consumption]
  | (dsimp only)
  | split

@[simp] theorem materialStage_power_consumption_kwh (part : XmlElem) (s : CalculationSummary) :
    (materialStage part s).power_consumption_kwh = s.power_consumption_kwh := by
  unfold materialStage
  repeat' first
  | rfl
  | (intro e t)
  | rw [updOpt_power_consumption_kwh]
  | (dsimp only)
  | split

@[simp] theorem materialStage_electricity_cost_total (part : XmlElem) (s : CalculationSummary) :
    (materialStage part s).electricity_cost_total = s.electricity_cost_total := by
  unfold materialStage
  repeat' first
  | rfl
  | (intro e t)
  | rw [updOpt_electricity_cost_total]
  | (dsimp only)
  | split

@[simp] theorem materialStage_electricity_cost_per_kwh (part : XmlElem) (s : CalculationSummary) :
    (materialStage part s).electricity_cost_per_kwh = s.electricity_cost_per_kwh := by
  unfold materialStage
  repeat' first
  | rfl
  | (intro e t)
  | rw [updOpt_electricity_cost_per_kwh]
  | (dsimp only)
  | split

@[simp] theorem materialStage_waste_percentage (part : XmlElem) (s : CalculationSummary) :
    (materialStage part s).waste_percentage = s.waste_percentage := by
  unfold materialStage
  repeat' first
  | rfl
  | (intro e t)
  | rw [updOpt_waste_percentage]
  | (dsimp only)
  | split

@[simp] theorem materialStage_material_utilization (part : XmlElem) (s : CalculationSummary) :
    (materialStage part s).material_utilization = s.material_utilization := by
  unfold materialStage
  repeat' first
  | rfl
  | (intro e t)
  | rw [updOpt_material_utilization]
  | (dsimp only)
  | split

@[simp] theorem materialCostStage_article_no (part : XmlElem) (s : CalculationSummary) :
    (materialCostStage part s).article_no = s.article_no := by
  unfold materialCostStage
  repeat' first
  | rfl
  | (intro e t)
  | rw [updOpt_article_no]
  | (dsimp only)
  | split

@[simp] theorem materialCostStage_net_cost_per_piece (part : XmlElem) (s : CalculationSummary) :
    (materialCostStage part s).net_cost_per_piece = s.net_cost_per_piece := by
  unfold materialCostStage
  repeat' first
  | rfl
  | (intro e t)
  | rw [updOpt_net_cost_per_piece]
  | (dsimp only)
  | split

@[simp] theorem materialCostStage_cost_qty_1 (part : XmlElem) (s : CalculationSummary) :
    (materialCostStage part s).cost_qty_1 = s.cost_qty_1 := by
  unfold materialCostStage
  repeat' first
  | rfl
  | (intro e t)
  | rw [updOpt_cost_qty_1]
  | (dsimp only)
  | split

@[simp] theorem materialCostStage_cost_qty_10 (part : XmlElem) (s : CalculationSummary) :
    (materialCostStage part s).cost_qty_10 = s.cost_qty_10 := by
  unfold materialCostStage
  repeat' first
  | rfl
  | (intro e t)
  | rw [updOpt_cost_qty_10]
  | (dsimp only)
  | split

@[simp] theorem materialCostStage_cost_qty_100 (part : XmlElem) (s : CalculationSummary) :
    (materialCostStage part s).cost_qty_100 = s.cost_qty_100 := by
  unfold materialCostStage
  repeat' first
  | rfl
  | (intro e t)
  | rw [updOpt_cost_qty_100]
  | (dsimp only)
  | split

@[simp] theorem materialCostStage_cost_qty_500 (part : XmlElem) (s : CalculationSummary) :
    (materialCostStage part s).cost_qty_500 = s.cost_qty_500 := by
  unfold materialCostStage
  repeat' first
  | rfl
  | (intro e t)
  | rw [updOpt_cost_qty_500]
  | (dsimp only)
  | split

@[simp] theorem materialCostStage_part_dimensions_x (part : XmlElem) (s : CalculationSummary) :
    (materialCostStage part s).part_dimensions_x = s.part_dimensions_x := by
  unfold materialCostStage
  repeat' first
  | rfl
  | (intro e t)
  | rw [updOpt_part_dimensions_x]
  | (dsimp only)
  | split

@[simp] theorem materialCostStage_part_dimensions_y (part : XmlElem) (s : CalculationSummary) :
    (materialCostStage part s).part_dimensions_y = s.part_dimensions_y := by
  unfold materialCostStage
  repeat' first
  | rfl
  | (intro e t)
  | rw [updOpt_part_dimensions_y]
  | (dsimp only)
  | split

@[simp] theorem materialCostStage_oxygen_consumption (part : XmlElem) (s : CalculationSummary) :
    (materialCostStage part s).oxygen_consumption = s.oxygen_consumption := by
  unfold materialCostStage
  repeat' first
  | rfl
  | (intro e t)
  | rw [updOpt_oxygen_consumption]
  | (dsimp only)
  | split

@[simp] theorem materialCostStage_nitrogen_consumption (part : XmlElem) (s : CalculationSummary) :
    (materialCostStage part s).nitrogen_consumption = s.nitrogen_consumption := by
  unfold materialCostStage
  repeat' first
  | rfl
  | (intro e t)
  | rw [updOpt_nitrogen_consumption]
  | (dsimp only)
  | split

@[simp] theorem materialCostStage_power_consumption_kwh (part : XmlElem) (s : CalculationSummary) :
    (materialCostStage part s).power_consumption_kwh = s.power_consumption_kwh := by
  unfold materialCostStage
  repeat' first
  | rfl
  | (intro e t)
  | rw [updOpt_power_consumption_kwh]
  | (dsimp only)
  | split

@[simp] theorem materialCostStage_electricity_cost_total (part : XmlElem) (s : CalculationSummary) :
    (materialCostStage part s).electricity_cost_total = s.electricity_cost_total := by
  unfold materialCostStage
  repeat' first
  | rfl
  | (intro e t)
  | rw [updOpt_electricity_cost_total]
  | (dsimp only)
  | split

@[simp] theorem materialCostStage_electricity_cost_per_kwh (part : XmlElem) (s : CalculationSummary) :
    (materialCostStage part s).electricity_cost_per_kwh = s.electricity_cost_per_kwh := by
  unfold materialCostStage
  repeat' first
  | rfl
  | (intro e t)
  | rw [updOpt_electricity_cost_per_kwh]
  | (dsimp only)
  | split

@[simp] theorem materialCostStage_waste_percentage (part : XmlElem) (s : CalculationSummary) :
    (materialCostStage part s).waste_percentage = s.waste_percentage := by
  unfold materialCostStage
  repeat' first
  | rfl
  | (intro e t)
  | rw [updOpt_waste_percentage]
  | (dsimp only)
  | split

@[simp] theorem materialCostStage_material_utilization (part : XmlElem) (s : CalculationSummary) :
    (materialCostStage part s).material_utilization = s.material_utilization := by
  unfold materialCostStage
  repeat' first
  | rfl
  | (intro e t)
  | rw [updOpt_material_utilization]
  | (dsimp only)
  | split

@[simp] theorem partInfoStage_article_no (part : XmlElem) (s : CalculationSummary) :
    (partInfoStage part s).article_no = s.article_no := by
  unfold partInfoStage
  repeat' first
  | rfl
  | (intro e t)
  | rw [updOpt_article_no]
  | (dsimp only)
  | split

@[simp] theorem partInfoStage_net_cost_per_piece (part : XmlElem) (s : CalculationSummary) :
    (partInfoStage part s).net_cost_per_piece = s.net_cost_per_piece := by
  unfold partInfoStage
  repeat' first
  | rfl
  | (intro e t)
  | rw [updOpt_net_cost_per_piece]
  | (dsimp only)
  | split

@[simp] theorem partInfoStage_cost_qty_1 (part : XmlElem) (s : CalculationSummary) :
    (partInfoStage part s).cost_qty_1 = s.cost_qty_1 := by
  unfold partInfoStage
  repeat' first
  | rfl
  | (intro e t)
  | rw [updOpt_cost_qty_1]
  | (dsimp only)
  | split

@[simp] theorem partInfoStage_cost_qty_10 (part : XmlElem) (s : CalculationSummary) :
    (partInfoStage part s).cost_qty_10 = s.cost_qty_10 := by
  unfold partInfoStage
  repeat' first
  | rfl
  | (intro e t)
  | rw [updOpt_cost_qty_10]
  | (dsimp only)
  | split

@[simp] theorem partInfoStage_cost_qty_100 (part : XmlElem) (s : CalculationSummary) :
    (partInfoStage part s).cost_qty_100 = s.cost_qty_100 := by
  unfold partInfoStage
  repeat' first
  | rfl
  | (intro e t)
  | rw [updOpt_cost_qty_100]
  | (dsimp only)
  | split

@[simp] theorem partInfoStage_cost_qty_500 (part : XmlElem) (s : CalculationSummary) :
    (partInfoStage part s).cost_qty_500 = s.cost_qty_500 := by
  unfold partInfoStage
  repeat' first
  | rfl
  | (intro e t)
  | rw [updOpt_cost_qty_500]
  | (dsimp only)
  | split

@[simp] theorem partInfoStage_oxygen_consumption (part : XmlElem) (s : CalculationSummary) :
    (partInfoStage part s).oxygen_consumption = s.oxygen_consumption := by
  unfold partInfoStage
  repeat' first
  | rfl
  | (intro e t)
  | rw [updOpt_oxygen_consumption]
  | (dsimp only)
  | split

@[simp] theorem partInfoStage_nitrogen_consumption (part : XmlElem) (s : CalculationSummary) :
    (partInfoStage part s).nitrogen_consumption = s.nitrogen_consumption := by
  unfold partInfoStage
  repeat' first
  | rfl
  | (intro e t)
  | rw [updOpt_nitrogen_consumption]
  | (dsimp only)
  | split

@[simp] theorem partInfoStage_power_consumption_kwh (part : XmlElem) (s : CalculationSummary) :
    (partInfoStage part s).power_consumption_kwh = s.power_consumption_kwh := by
  unfold partInfoStage
  repeat' first
  | rfl
  | (intro e t)
  | rw [updOpt_power_consumption_kwh]
  | (dsimp only)
  | split

@[simp] theorem partInfoStage_electricity_cost_total (part : XmlElem) (s : CalculationSummary) :
    (partInfoStage part s).electricity_cost_total = s.electricity_cost_total := by
  unfold partInfoStage
  repeat' first
  | rfl
  | (intro e t)
  | rw [updOpt_electricity_cost_total]
  | (dsimp only)
  | split

@[simp] theorem partInfoStage_electricity_cost_per_kwh (part : XmlElem) (s : CalculationSummary) :
    (partInfoStage part s).electricity_cost_per_kwh = s.electricity_cost_per_kwh := by
  unfold partInfoStage
  repeat' first
  | rfl
  | (intro e t)
  | rw [updOpt_electricity_cost_per_kwh]
  | (dsimp only)
  | split

@[simp] theorem partInfoStage_waste_percentage (part : XmlElem) (s : CalculationSummary) :
    (partInfoStage part s).waste_percentage = s.waste_percentage := by
  unfold partInfoStage
  repeat' first
  | rfl
  | (intro e t)
  | rw [updOpt_waste_percentage]
  | (dsimp only)
  | split

@[simp] theorem partInfoStage_material_utilization (part : XmlElem) (s : CalculationSummary) :
    (partInfoStage part s).material_utilization = s.material_utilization := by
  unfold partInfoStage
  repeat' first
  | rfl
  | (intro e t)
  | rw [updOpt_material_utilization]
  | (dsimp only)
  | split

@[simp] theorem dimFallbackStage_article_no (part : XmlElem) (s : CalculationSummary) :
    (dimFallbackStage part s).article_no = s.article_no := by
  unfold dimFallbackStage
  repeat' first
  | rfl
  | (intro e t)
  | rw [updOpt_article_no]
  | (dsimp only)
  | split

@[simp] theorem dimFallbackStage_net_cost_per_piece (part : XmlElem) (s : CalculationSummary) :
    (dimFallbackStage part s).net_cost_per_piece = s.net_cost_per_piece := by
  unfold dimFallbackStage
  repeat' first
  | rfl
  | (intro e t)
  | rw [updOpt_net_cost_per_piece]
  | (dsimp only)
  | split

@[simp] theorem dimFallbackStage_cost_qty_1 (part : XmlElem) (s : CalculationSummary) :
    (dimFallbackStage part s).cost_qty_1 = s.cost_qty_1 := by
  unfold dimFallbackStage
  repeat' first
  | rfl
  | (intro e t)
  | rw [updOpt_cost_qty_1]
  | (dsimp only)
  | split

@[simp] theorem dimFallbackStage_cost_qty_10 (part : XmlElem) (s : CalculationSummary) :
    (dimFallbackStage part s).cost_qty_10 = s.cost_qty_10 := by
  unfold dimFallbackStage
  repeat' first
  | rfl
  | (intro e t)
  | rw [updOpt_cost_qty_10]
  | (dsimp only)
  | split

@[simp] theorem dimFallbackStage_cost_qty_100 (part : XmlElem) (s : CalculationSummary) :
    (dimFallbackStage part s).cost_qty_100 = s.cost_qty_100 := by
  unfold dimFallbackStage
  repeat' first
  | rfl
  | (intro e t)
  | rw [updOpt_cost_qty_100]
  | (dsimp only)
  | split

@[simp] theorem dimFallbackStage_cost_qty_500 (part : XmlElem) (s : CalculationSummary) :
    (dimFallbackStage part s).cost_qty_500 = s.cost_qty_500 := by
  unfold dimFallbackStage
  repeat' first
  | rfl
  | (intro e t)
  | rw [updOpt_cost_qty_500]
  | (dsimp only)
  | split

@[simp] theorem dimFallbackStage_oxygen_consumption (part : XmlElem) (s : CalculationSummary) :
    (dimFallbackStage part s).oxygen_consumption = s.oxygen_consumption := by
  unfold dimFallbackStage
  repeat' first
  | rfl
  | (intro e t)
  | rw [updOpt_oxygen_consumption]
  | (dsimp only)
  | split

@[simp] theorem dimFallbackStage_nitrogen_consumption (part : XmlElem) (s : CalculationSummary) :
    (dimFallbackStage part s).nitrogen_consumption = s.nitrogen_consumption := by
  unfold dimFallbackStage
  repeat' first
  | rfl
  | (intro e t)
  | rw [updOpt_nitrogen_consumption]
  | (dsimp only)
  | split

@[simp] theorem dimFallbackStage_power_consumption_kwh (part : XmlElem) (s : CalculationSummary) :
    (dimFallbackStage part s).power_consumption_kwh = s.power_consumption_kwh := by
  unfold dimFallbackStage
  repeat' first
  | rfl
  | (intro e t)
  | rw [updOpt_power_consumption_kwh]
  | (dsimp only)
  | split

@[simp] theorem dimFallbackStage_electricity_cost_total (part : XmlElem) (s : CalculationSummary) :
    (dimFallbackStage part s).electricity_cost_total = s.electricity_cost_total := by
  unfold dimFallbackStage
  repeat' first
  | rfl
  | (intro e t)
  | rw [updOpt_electricity_cost_total]
  | (dsimp only)
  | split

@[simp] theorem dimFallbackStage_electricity_cost_per_kwh (part : XmlElem) (s : CalculationSummary) :
    (dimFallbackStage part s).electricity_cost_per_kwh = s.electricity_cost_per_kwh := by
  unfold dimFallbackStage
  repeat' first
  | rfl
  | (intro e t)
  | rw [updOpt_electricity_cost_per_kwh]
  | (dsimp only)
  | split

@[simp] theorem dimFallbackStage_waste_percentage (part : XmlElem) (s : CalculationSummary) :
    (dimFallbackStage part s).waste_percentage = s.waste_percentage := by
  unfold dimFallbackStage
  repeat' first
  | rfl
  | (intro e t)
  | rw [updOpt_waste_percentage]
  | (dsimp only)
  | split

@[simp] theorem dimFallbackStage_material_utilization (part : XmlElem) (s : CalculationSummary) :
    (dimFallbackStage part s).material_utilization = s.material_utilization := by
  unfold dimFallbackStage
  repeat' first
  | rfl
  | (intro e t)
  | rw [updOpt_material_utilization]
  | (dsimp only)
  | split

@[simp] theorem workPlaceBlock_article_no (wpd : XmlElem) (s : CalculationSummary) :
    (workPlaceBlock wpd s).article_no = s.article_no := by
  unfold workPlaceBlock
  repeat' first
  | rfl
  | (intro e t)
  | rw [updOpt_article_no]
  | (dsimp only)
  | split

@[simp] theorem workPlaceBlock_net_cost_per_piece (wpd : XmlElem) (s : CalculationSummary) :
    (workPlaceBlock wpd s).net_cost_per_piece = s.net_cost_per_piece := by
  unfold workPlaceBlock
  repeat' first
  | rfl
  | (intro e t)
  | rw [updOpt_net_cost_per_piece]
  | (dsimp only)
  | split

@[simp] theorem workPlaceBlock_cost_qty_1 (wpd : XmlElem) (s : CalculationSummary) :
    (workPlaceBlock wpd s).cost_qty_1 = s.cost_qty_1 := by
  unfold workPlaceBlock
  repeat' first
  | rfl
  | (intro e t)
  | rw [updOpt_cost_qty_1]
  | (dsimp only)
  | split

@[simp] theorem workPlaceBlock_cost_qty_10 (wpd : XmlElem) (s : CalculationSummary) :
    (workPlaceBlock wpd s).cost_qty_10 = s.cost_qty_10 := by
  unfold workPlaceBlock
  repeat' first
  | rfl
  | (intro e t)
  | rw [updOpt_cost_qty_10]
  | (dsimp only)
  | split

@[simp] theorem workPlaceBlock_cost_qty_100 (wpd : XmlElem) (s : CalculationSummary) :
    (workPlaceBlock wpd s).cost_qty_100 = s.cost_qty_100 := by
  unfold workPlaceBlock
  repeat' first
  | rfl
  | (intro e t)
  | rw [updOpt_cost_qty_100]
  | (dsimp only)
  | split

@[simp] theorem workPlaceBlock_cost_qty_500 (wpd : XmlElem) (s : CalculationSummary) :
    (workPlaceBlock wpd s).cost_qty_500 = s.cost_qty_500 := by
  unfold workPlaceBlock
  repeat' first
  | rfl
  | (intro e t)
  | rw [updOpt_cost_qty_500]
  | (dsimp only)
  | split

@[simp] theorem workPlaceBlock_part_dimensions_x (wpd : XmlElem) (s : CalculationSummary) :
    (workPlaceBlock wpd s).part_dimensions_x = s.part_dimensions_x := by
  unfold workPlaceBlock
  repeat' first
  | rfl
  | (intro e t)
  | rw [updOpt_part_dimensions_x]
  | (dsimp only)
  | split

@[simp] theorem workPlaceBlock_part_dimensions_y (wpd : XmlElem) (s : CalculationSummary) :
    (workPlaceBlock wpd s).part_dimensions_y = s.part_dimensions_y := by
  unfold workPlaceBlock
  repeat' first
  | rfl
  | (intro e t)
  | rw [updOpt_part_dimensions_y]
  | (dsimp only)
  | split

@[simp] theorem workPlaceBlock_oxygen_consumption (wpd : XmlElem) (s : CalculationSummary) :
    (workPlaceBlock wpd s).oxygen_consumption = s.oxygen_consumption := by
  unfold workPlaceBlock
  repeat' first
  | rfl
  | (intro e t)
  | rw [updOpt_oxygen_consumption]
  | (dsimp only)
  | split

@[simp] theorem workPlaceBlock_nitrogen_consumption (wpd : XmlElem) (s : CalculationSummary) :
    (workPlaceBlock wpd s).nitrogen_consumption = s.nitrogen_consumption := by
  unfold workPlaceBlock
  repeat' first
  | rfl
  | (intro e t)
  | rw [updOpt_nitrogen_consumption]
  | (dsimp only)
  | split

@[simp] theorem workPlaceBlock_power_consumption_kwh (wpd : XmlElem) (s : CalculationSummary) :
    (workPlaceBlock wpd s).power_consumption_kwh = s.power_consumption_kwh := by
  unfold workPlaceBlock
  repeat' first
  | rfl
  | (intro e t)
  | rw [updOpt_power_consumption_kwh]
  | (dsimp only)
  | split

@[simp] theorem workPlaceBlock_electricity_cost_total (wpd : XmlElem) (s : CalculationSummary) :
    (workPlaceBlock wpd s).electricity_cost_total = s.electricity_cost_total := by
  unfold workPlaceBlock
  repeat' first
  | rfl
  | (intro e t)
  | rw [updOpt_electricity_cost_total]
  | (dsimp only)
  | split

@[simp] theorem workPlaceBlock_electricity_cost_per_kwh (wpd : XmlElem) (s : CalculationSummary) :
    (workPlaceBlock wpd s).electricity_cost_per_kwh = s.electricity_cost_per_kwh := by
  unfold workPlaceBlock
  repeat' first
  | rfl
  | (intro e t)
  | rw [updOpt_electricity_cost_per_kwh]
  | (dsimp only)
  | split

@[simp] theorem workPlaceBlock_waste_percentage (wpd : XmlElem) (s : CalculationSummary) :
    (workPlaceBlock wpd s).waste_percentage = s.waste_percentage := by
  unfold workPlaceBlock
  repeat' first
  | rfl
  | (intro e t)
  | rw [updOpt_waste_percentage]
  | (dsimp only)
  | split

@[simp] theorem workPlaceBlock_material_utilization (wpd : XmlElem) (s : CalculationSummary) :
    (workPlaceBlock wpd s).material_utilization = s.material_utilization := by
  unfold workPlaceBlock
  repeat' first
  | rfl
  | (intro e t)
  | rw [updOpt_material_utilization]
  | (dsimp only)
  | split

@[simp] theorem timeDataBlock_article_no (td : XmlElem) (s : CalculationSummary) :
    (timeDataBlock td s).article_no = s.article_no := by
  unfold timeDataBlock
  repeat' first
  | rfl
  | (intro e t)
  | rw [updOpt_article_no]
  | (dsimp only)
  | split

@[simp] theorem timeDataBlock_net_cost_per_piece (td : XmlElem) (s : CalculationSummary) :
    (timeDataBlock td s).net_cost_per_piece = s.net_cost_per_piece := by
  unfold timeDataBlock
  repeat' first
  | rfl
  | (intro e t)
  | rw [updOpt_net_cost_per_piece]
  | (dsimp only)
  | split

@[simp] theorem timeDataBlock_cost_qty_1 (td : XmlElem) (s : CalculationSummary) :
    (timeDataBlock td s).cost_qty_1 = s.cost_qty_1 := by
  unfold timeDataBlock
  repeat' first
  | rfl
  | (intro e t)
  | rw [updOpt_cost_qty_1]
  | (dsimp only)
  | split

@[simp] theorem timeDataBlock_cost_qty_10 (td : XmlElem) (s : CalculationSummary) :
    (timeDataBlock td s).cost_qty_10 = s.cost_qty_10 := by
  unfold timeDataBlock
  repeat' first
  | rfl
  | (intro e t)
  | rw [updOpt_cost_qty_10]
  | (dsimp only)
  | split

@[simp] theorem timeDataBlock_cost_qty_100 (td : XmlElem) (s : CalculationSummary) :
    (timeDataBlock td s).cost_qty_100 = s.cost_qty_100 := by
  unfold timeDataBlock
  repeat' first
  | rfl
  | (intro e t)
  | rw [updOpt_cost_qty_100]
  | (dsimp only)
  | split

@[simp] theorem timeDataBlock_cost_qty_500 (td : XmlElem) (s : CalculationSummary) :
    (timeDataBlock td s).cost_qty_500 = s.cost_qty_500 := by
  unfold timeDataBlock
  repeat' first
  | rfl
  | (intro e t)
  | rw [updOpt_cost_qty_500]
  | (dsimp only)
  | split

@[simp] theorem timeDataBlock_part_dimensions_x (td : XmlElem) (s : CalculationSummary) :
    (timeDataBlock td s).part_dimensions_x = s.part_dimensions_x := by
  unfold timeDataBlock
  repeat' first
  | rfl
  | (intro e t)
  | rw [updOpt_part_dimensions_x]
  | (dsimp only)
  | split

@[simp] theorem timeDataBlock_part_dimensions_y (td : XmlElem) (s : CalculationSummary) :
    (timeDataBlock td s).part_dimensions_y = s.part_dimensions_y := by
  unfold timeDataBlock
  repeat' first
  | rfl
  | (intro e t)
  | rw [updOpt_part_dimensions_y]
  | (dsimp only)
  | split

@[simp] theorem timeDataBlock_oxygen_consumption (td : XmlElem) (s : CalculationSummary) :
    (timeDataBlock td s).oxygen_consumption = s.oxygen_consumption := by
  unfold timeDataBlock
  repeat' first
  | rfl
  | (intro e t)
  | rw [updOpt_oxygen_consumption]
  | (dsimp only)
  | split

@[simp] theorem timeDataBlock_nitrogen_consumption (td : XmlElem) (s : CalculationSummary) :
    (timeDataBlock td s).nitrogen_consumption = s.nitrogen_consumption := by
  unfold timeDataBlock
  repeat' first
  | rfl
  | (intro e t)
  | rw [updOpt_nitrogen_consumption]
  | (dsimp only)
  | split

@[simp] theorem timeDataBlock_power_consumption_kwh (td : XmlElem) (s : CalculationSummary) :
    (timeDataBlock td s).power_consumption_kwh = s.power_consumption_kwh := by
  unfold timeDataBlock
  repeat' first
  | rfl
  | (intro e t)
  | rw [updOpt_power_consumption_kwh]
  | (dsimp only)
  | split

@[simp] theorem timeDataBlock_electricity_cost_total (td : XmlElem) (s : CalculationSummary) :
    (timeDataBlock td s).electricity_cost_total = s.electricity_cost_total := by
  unfold timeDataBlock
  repeat' first
  | rfl
  | (intro e t)
  | rw [updOpt_electricity_cost_total]
  | (dsimp only)
  | split

@[simp] theorem timeDataBlock_electricity_cost_per_kwh (td : XmlElem) (s : CalculationSummary) :
    (timeDataBlock td s).electricity_cost_per_kwh = s.electricity_cost_per_kwh := by
  unfold timeDataBlock
  repeat' first
  | rfl
  | (intro e t)
  | rw [updOpt_electricity_cost_per_kwh]
  | (dsimp only)
  | split

@[simp] theorem timeDataBlock_waste_percentage (td : XmlElem) (s : CalculationSummary) :
    (timeDataBlock td s).waste_percentage = s.waste_percentage := by
  unfold timeDataBlock
  repeat' first
  | rfl
  | (intro e t)
  | rw [updOpt_waste_percentage]
  | (dsimp only)
  | split

@[simp] theorem timeDataBlock_material_utilization (td : XmlElem) (s : CalculationSummary) :
    (timeDataBlock td s).material_utilization = s.material_utilization := by
  unfold timeDataBlock
  repeat' first
  | rfl
  | (intro e t)
  | rw [updOpt_material_utilization]
  | (dsimp only)
  | split

@[simp] theorem workingStepStage_article_no (part : XmlElem) (s : CalculationSummary) :
    (workingStepStage part s).article_no = s.article_no := by
  unfold workingStepStage
  repeat' first
  | rfl
  | (intro e t)
  | rw [updOpt_article_no]
  | rw [workPlaceBlock_article_no]
  | rw [timeDataBlock_article_no]
  | (dsimp only)
  | split

@[simp] theorem workingStepStage_net_cost_per_piece (part : XmlElem) (s : CalculationSummary) :
    (workingStepStage part s).net_cost_per_piece = s.net_cost_per_piece := by
  unfold workingStepStage
  repeat' first
  | rfl
  | (intro e t)
  | rw [updOpt_net_cost_per_piece]
  | rw [workPlaceBlock_net_cost_per_piece]
  | rw [timeDataBlock_net_cost_per_piece]
  | (dsimp only)
  | split

@[simp] theorem workingStepStage_cost_qty_1 (part : XmlElem) (s : CalculationSummary) :
    (workingStepStage part s).cost_qty_1 = s.cost_qty_1 := by
  unfold workingStepStage
  repeat' first
  | rfl
  | (intro e t)
  | rw [updOpt_cost_qty_1]
  | rw [workPlaceBlock_cost_qty_1]
  | rw [timeDataBlock_cost_qty_1]
  | (dsimp only)
  | split

@[simp] theorem workingStepStage_cost_qty_10 (part : XmlElem) (s : CalculationSummary) :
    (workingStepStage part s).cost_qty_10 = s.cost_qty_10 := by
  unfold workingStepStage
  repeat' first
  | rfl
  | (intro e t)
  | rw [updOpt_cost_qty_10]
  | rw [workPlaceBlock_cost_qty_10]
  | rw [timeDataBlock_cost_qty_10]
  | (dsimp only)
  | split

@[simp] theorem workingStepStage_cost_qty_100 (part : XmlElem) (s : CalculationSummary) :
    (workingStepStage part s).cost_qty_100 = s.cost_qty_100 := by
  unfold workingStepStage
  repeat' first
  | rfl
  | (intro e t)
  | rw [updOpt_cost_qty_100]
  | rw [workPlaceBlock_cost_qty_100]
  | rw [timeDataBlock_cost_qty_100]
  | (dsimp only)
  | split

@[simp] theorem workingStepStage_cost_qty_500 (part : XmlElem) (s : CalculationSummary) :
    (workingStepStage part s).cost_qty_500 = s.cost_qty_500 := by
  unfold workingStepStage
  repeat' first
  | rfl
  | (intro e t)
  | rw [updOpt_cost_qty_500]
  | rw [workPlaceBlock_cost_qty_500]
  | rw [timeDataBlock_cost_qty_500]
  | (dsimp only)
  | split

@[simp] theorem workingStepStage_part_dimensions_x (part : XmlElem) (s : CalculationSummary) :
    (workingStepStage part s).part_dimensions_x = s.part_dimensions_x := by
  unfold workingStepStage
  repeat' first
  | rfl
  | (intro e t)
  | rw [updOpt_part_dimensions_x]
  | rw [workPlaceBlock_part_dimensions_x]
  | rw [timeDataBlock_part_dimensions_x]
  | (dsimp only)
  | split

@[simp] theorem workingStepStage_part_dimensions_y (part : XmlElem) (s : CalculationSummary) :
    (workingStepStage part s).part_dimensions_y = s.part_dimensions_y := by
  unfold workingStepStage
  repeat' first
  | rfl
  | (intro e t)
  | rw [updOpt_part_dimensions_y]
  | rw [workPlaceBlock_part_dimensions_y]
  | rw [timeDataBlock_part_dimensions_y]
  | (dsimp only)
  | split

@[simp] theorem workingStepStage_oxygen_consumption (part : XmlElem) (s : CalculationSummary) :
    (workingStepStage part s).oxygen_consumption = s.oxygen_consumption := by
  unfold workingStepStage
  repeat' first
  | rfl
  | (intro e t)
  | rw [updOpt_oxygen_consumption]
  | rw [workPlaceBlock_oxygen_consumption]
  | rw [timeDataBlock_oxygen_consumption]
  | (dsimp only)
  | split

@[simp] theorem workingStepStage_nitrogen_consumption (part : XmlElem) (s : CalculationSummary) :
    (workingStepStage part s).nitrogen_consumption = s.nitrogen_consumption := by
  unfold workingStepStage
  repeat' first
  | rfl
  | (intro e t)
  | rw [updOpt_nitrogen_consumption]
  | rw [workPlaceBlock_nitrogen_consumption]
  | rw [timeDataBlock_nitrogen_consumption]
  | (dsimp only)
  | split

@[simp] theorem workingStepStage_power_consumption_kwh (part : XmlElem) (s : CalculationSummary) :
    (workingStepStage part s).power_consumption_kwh = s.power_consumption_kwh := by
  unfold workingStepStage
  repeat' first
  | rfl
  | (intro e t)
  | rw [updOpt_power_consumption_kwh]
  | rw [workPlaceBlock_power_consumption_kwh]
  | rw [timeDataBlock_power_consumption_kwh]
  | (dsimp only)
  | split

@[simp] theorem workingStepStage_electricity_cost_total (part : XmlElem) (s : CalculationSummary) :
    (workingStepStage part s).electricity_cost_total = s.electricity_cost_total := by
  unfold workingStepStage
  repeat' first
  | rfl
  | (intro e t)
  | rw [updOpt_electricity_cost_total]
  | rw [workPlaceBlock_electricity_cost_total]
  | rw [timeDataBlock_electricity_cost_total]
  | (dsimp only)
  | split

@[simp] theorem workingStepStage_electricity_cost_per_kwh (part : XmlElem) (s : CalculationSummary) :
    (workingStepStage part s).electricity_cost_per_kwh = s.electricity_cost_per_kwh := by
  unfold workingStepStage
  repeat' first
  | rfl
  | (intro e t)
  | rw [updOpt_electricity_cost_per_kwh]
  | rw [workPlaceBlock_electricity_cost_per_kwh]
  | rw [timeDataBlock_electricity_cost_per_kwh]
  | (dsimp only)
  | split

@[simp] theorem workingStepStage_waste_percentage (part : XmlElem) (s : CalculationSummary) :
    (workingStepStage part s).waste_percentage = s.waste_percentage := by
  unfold workingStepStage
  repeat' first
  | rfl
  | (intro e t)
  | rw [updOpt_waste_percentage]
  | rw [workPlaceBlock_waste_percentage]
  | rw [timeDataBlock_waste_percentage]
  | (dsimp only)
  | split

@[simp] theorem workingStepStage_material_utilization (part : XmlElem) (s : CalculationSummary) :
    (workingStepStage part s).material_utilization = s.material_utilization := by
  unfold workingStepStage
  repeat' first
  | rfl
  | (intro e t)
  | rw [updOpt_material_utilization]
  | rw [workPlaceBlock_material_utilization]
  | rw [timeDataBlock_material_utilization]
  | (dsimp only)
  | split

@[simp] theorem costStage_article_no (part : XmlElem) (s : CalculationSummary) :
    (costStage part s).article_no = s.article_no := by
  unfold costStage
  repeat' first
  | rfl
  | (intro e t)
  | rw [updOpt_article_no]
  | (dsimp only)
  | split

@[simp] theorem costStage_cost_qty_1 (part : XmlElem) (s : CalculationSummary) :
    (costStage part s).cost_qty_1 = s.cost_qty_1 := by
  unfold costStage
  repeat' first
  | rfl
  | (intro e t)
  | rw [updOpt_cost_qty_1]
  | (dsimp only)
  | split

@[simp] theorem costStage_cost_qty_10 (part : XmlElem) (s : CalculationSummary) :
    (costStage part s).cost_qty_10 = s.cost_qty_10 := by
  unfold costStage
  repeat' first
  | rfl
  | (intro e t)
  | rw [updOpt_cost_qty_10]
  | (dsimp only)
  | split

@[simp] theorem costStage_cost_qty_100 (part : XmlElem) (s : CalculationSummary) :
    (costStage part s).cost_qty_100 = s.cost_qty_100 := by
  unfold costStage
  repeat' first
  | rfl
  | (intro e t)
  | rw [updOpt_cost_qty_100]
  | (dsimp only)
  | split

@[simp] theorem costStage_cost_qty_500 (part : XmlElem) (s : CalculationSummary) :
    (costStage part s).cost_qty_500 = s.cost_qty_500 := by
  unfold costStage
  repeat' first
  | rfl
  | (intro e t)
  | rw [updOpt_cost_qty_500]
  | (dsimp only)
  | split

@[simp] theorem costStage_part_dimensions_x (part : XmlElem) (s : CalculationSummary) :
    (costStage part s).part_dimensions_x = s.part_dimensions_x := by
  unfold costStage
  repeat' first
  | rfl
  | (intro e t)
  | rw [updOpt_part_dimensions_x]
  | (dsimp only)
  | split

@[simp] theorem costStage_part_dimensions_y (part : XmlElem) (s : CalculationSummary) :
    (costStage part s).part_dimensions_y = s.part_dimensions_y := by
  unfold costStage
  repeat' first
  | rfl
  | (intro e t)
  | rw [updOpt_part_dimensions_y]
  | (dsimp only)
  | split

@[simp] theorem costStage_oxygen_consumption (part : XmlElem) (s : CalculationSummary) :
    (costStage part s).oxygen_consumption = s.oxygen_consumption := by
  unfold costStage
  repeat' first
  | rfl
  | (intro e t)
  | rw [updOpt_oxygen_consumption]
  | (dsimp only)
  | split

@[simp] theorem costStage_nitrogen_consumption (part : XmlElem) (s : CalculationSummary) :
    (costStage part s).nitrogen_consumption = s.nitrogen_consumption := by
  unfold costStage
  repeat' first
  | rfl
  | (intro e t)
  | rw [updOpt_nitrogen_consumption]
  | (dsimp only)
  | split

@[simp] theorem costStage_power_consumption_kwh (part : XmlElem) (s : CalculationSummary) :
    (costStage part s).power_consumption_kwh = s.power_consumption_kwh := by
  unfold costStage
  repeat' first
  | rfl
  | (intro e t)
  | rw [updOpt_power_consumption_kwh]
  | (dsimp only)
  | split

@[simp] theorem costStage_electricity_cost_total (part : XmlElem) (s : CalculationSummary) :
    (costStage part s).electricity_cost_total = s.electricity_cost_total := by
  unfold costStage
  repeat' first
  | rfl
  | (intro e t)
  | rw [updOpt_electricity_cost_total]
  | (dsimp only)
  | split

@[simp] theorem costStage_electricity_cost_per_kwh (part : XmlElem) (s : CalculationSummary) :
    (costStage part s).electricity_cost_per_kwh = s.electricity_cost_per_kwh := by
  unfold costStage
  repeat' first
  | rfl
  | (intro e t)
  | rw [updOpt_electricity_cost_per_kwh]
  | (dsimp only)
  | split

@[simp] theorem costStage_waste_percentage (part : XmlElem) (s : CalculationSummary) :
    (costStage part s).waste_percentage = s.waste_percentage := by
  unfold costStage
  repeat' first
  | rfl
  | (intro e t)
  | rw [updOpt_waste_percentage]
  | (dsimp only)
  | split

@[simp] theorem costStage_material_utilization (part : XmlElem) (s : CalculationSummary) :
    (costStage part s).material_utilization = s.material_utilization := by
  unfold costStage
  repeat' first
  | rfl
  | (intro e t)
  | rw [updOpt_material_utilization]
  | (dsimp only)
  | split

@[simp] theorem scalePriceStage_article_no (part : XmlElem) (s : CalculationSummary) :
    (scalePriceStage part s).article_no = s.article_no := by
  unfold scalePriceStage
  repeat' first
  | rfl
  | (intro e t)
  | rw [updOpt_article_no]
  | (dsimp only)
  | split

@[simp] theorem scalePriceStage_net_cost_per_piece (part : XmlElem) (s : CalculationSummary) :
    (scalePriceStage part s).net_cost_per_piece = s.net_cost_per_piece := by
  unfold scalePriceStage
  repeat' first
  | rfl
  | (intro e t)
  | rw [updOpt_net_cost_per_piece]
  | (dsimp only)
  | split

@[simp] theorem scalePriceStage_part_dimensions_x (part : XmlElem) (s : CalculationSummary) :
    (scalePriceStage part s).part_dimensions_x = s.part_dimensions_x := by
  unfold scalePriceStage
  repeat' first
  | rfl
  | (intro e t)
  | rw [updOpt_part_dimensions_x]
  | (dsimp only)
  | split

@[simp] theorem scalePriceStage_part_dimensions_y (part : XmlElem) (s : CalculationSummary) :
    (scalePriceStage part s).part_dimensions_y = s.part_dimensions_y := by
  unfold scalePriceStage
  repeat' first
  | rfl
  | (intro e t)
  | rw [updOpt_part_dimensions_y]
  | (dsimp only)
  | split

@[simp] theorem scalePriceStage_oxygen_consumption (part : XmlElem) (s : CalculationSummary) :
    (scalePriceStage part s).oxygen_consumption = s.oxygen_consumption := by
  unfold scalePriceStage
  repeat' first
  | rfl
  | (intro e t)
  | rw [updOpt_oxygen_consumption]
  | (dsimp only)
  | split

@[simp] theorem scalePriceStage_nitrogen_consumption (part : XmlElem) (s : CalculationSummary) :
    (scalePriceStage part s).nitrogen_consumption = s.nitrogen_consumption := by
  unfold scalePriceStage
  repeat' first
  | rfl
  | (intro e t)
  | rw [updOpt_nitrogen_consumption]
  | (dsimp only)
  | split

@[simp] theorem scalePriceStage_power_consumption_kwh (part : XmlElem) (s : CalculationSummary) :
    (scalePriceStage part s).power_consumption_kwh = s.power_consumption_kwh := by
  unfold scalePriceStage
  repeat' first
  | rfl
  | (intro e t)
  | rw [updOpt_power_consumption_kwh]
  | (dsimp only)
  | split

@[simp] theorem scalePriceStage_electricity_cost_total (part : XmlElem) (s : CalculationSummary) :
    (scalePriceStage part s).electricity_cost_total = s.electricity_cost_total := by
  unfold scalePriceStage
  repeat' first
  | rfl
  | (intro e t)
  | rw [updOpt_electricity_cost_total]
  | (dsimp only)
  | split

@[simp] theorem scalePriceStage_electricity_cost_per_kwh (part : XmlElem) (s : CalculationSummary) :
    (scalePriceStage part s).electricity_cost_per_kwh = s.electricity_cost_per_kwh := by
  unfold scalePriceStage
  repeat' first
  | rfl
  | (intro e t)
  | rw [updOpt_electricity_cost_per_kwh]
  | (dsimp only)
  | split

@[simp] theorem scalePriceStage_waste_percentage (part : XmlElem) (s : CalculationSummary) :
    (scalePriceStage part s).waste_percentage = s.waste_percentage := by
  unfold scalePriceStage
  repeat' first
  | rfl
  | (intro e t)
  | rw [updOpt_waste_percentage]
  | (dsimp only)
  | split

@[simp] theorem scalePriceStage_material_utilization (part : XmlElem) (s : CalculationSummary) :
    (scalePriceStage part s).material_utilization = s.material_utilization := by
  unfold scalePriceStage
  repeat' first
  | rfl
  | (intro e t)
  | rw [updOpt_material_utilization]
  | (dsimp only)
  | split

@[simp] theorem operatorCostsBlock_article_no (root : XmlElem) (s : CalculationSummary) :
    (operatorCostsBlock root s).article_no = s.article_no := by
  unfold operatorCostsBlock
  repeat' first
  | rfl
  | (intro e t)
  | rw [updOpt_article_no]
  | (dsimp only)
  | split

@[simp] theorem operatorCostsBlock_net_cost_per_piece (root : XmlElem) (s : CalculationSummary) :
    (operatorCostsBlock root s).net_cost_per_piece = s.net_cost_per_piece := by
  unfold operatorCostsBlock
  repeat' first
  | rfl
  | (intro e t)
  | rw [updOpt_net_cost_per_piece]
  | (dsimp only)
  | split

@[simp] theorem operatorCostsBlock_cost_qty_1 (root : XmlElem) (s : CalculationSummary) :
    (operatorCostsBlock root s).cost_qty_1 = s.cost_qty_1 := by
  unfold operatorCostsBlock
  repeat' first
  | rfl
  | (intro e t)
  | rw [updOpt_cost_qty_1]
  | (dsimp only)
  | split

@[simp] theorem operatorCostsBlock_cost_qty_10 (root : XmlElem) (s : CalculationSummary) :
    (operatorCostsBlock root s).cost_qty_10 = s.cost_qty_10 := by
  unfold operatorCostsBlock
  repeat' first
  | rfl
  | (intro e t)
  | rw [updOpt_cost_qty_10]
  | (dsimp only)
  | split

@[simp] theorem operatorCostsBlock_cost_qty_100 (root : XmlElem) (s : CalculationSummary) :
    (operatorCostsBlock root s).cost_qty_100 = s.cost_qty_100 := by
  unfold operatorCostsBlock
  repeat' first
  | rfl
  | (intro e t)
  | rw [updOpt_cost_qty_100]
  | (dsimp only)
  | split

@[simp] theorem operatorCostsBlock_cost_qty_500 (root : XmlElem) (s : CalculationSummary) :
    (operatorCostsBlock root s).cost_qty_500 = s.cost_qty_500 := by
  unfold operatorCostsBlock
  repeat' first
  | rfl
  | (intro e t)
  | rw [updOpt_cost_qty_500]
  | (dsimp only)
  | split

@[simp] theorem operatorCostsBlock_part_dimensions_x (root : XmlElem) (s : CalculationSummary) :
    (operatorCostsBlock root s).part_dimensions_x = s.part_dimensions_x := by
  unfold operatorCostsBlock
  repeat' first
  | rfl
  | (intro e t)
  | rw [updOpt_part_dimensions_x]
  | (dsimp only)
  | split

@[simp] theorem operatorCostsBlock_part_dimensions_y (root : XmlElem) (s : CalculationSummary) :
    (operatorCostsBlock root s).part_dimensions_y = s.part_dimensions_y := by
  unfold operatorCostsBlock
  repeat' first
  | rfl
  | (intro e t)
  | rw [updOpt_part_dimensions_y]
  | (dsimp only)
  | split

@[simp] theorem operatorCostsBlock_oxygen_consumption (root : XmlElem) (s : CalculationSummary) :
    (operatorCostsBlock root s).oxygen_consumption = s.oxygen_consumption := by
  unfold operatorCostsBlock
  repeat' first
  | rfl
  | (intro e t)
  | rw [updOpt_oxygen_consumption]
  | (dsimp only)
  | split

@[simp] theorem operatorCostsBlock_nitrogen_consumption (root : XmlElem) (s : CalculationSummary) :
    (operatorCostsBlock root s).nitrogen_consumption = s.nitrogen_consumption := by
  unfold operatorCostsBlock
  repeat' first
  | rfl
  | (intro e t)
  | rw [updOpt_nitrogen_consumption]
  | (dsimp only)
  | split

@[simp] theorem operatorCostsBlock_power_consumption_kwh (root : XmlElem) (s : CalculationSummary) :
    (operatorCostsBlock root s).power_consumption_kwh = s.power_consumption_kwh := by
  unfold operatorCostsBlock
  repeat' first
  | rfl
  | (intro e t)
  | rw [updOpt_power_consumption_kwh]
  | (dsimp only)
  | split

@[simp] theorem operatorCostsBlock_electricity_cost_total (root : XmlElem) (s : CalculationSummary) :
    (operatorCostsBlock root s).electricity_cost_total = s.electricity_cost_total := by
  unfold operatorCostsBlock
  repeat' first
  | rfl
  | (intro e t)
  | rw [updOpt_electricity_cost_total]
  | (dsimp only)
  | split

@[simp] theorem operatorCostsBlock_waste_percentage (root : XmlElem) (s : CalculationSummary) :
    (operatorCostsBlock root s).waste_percentage = s.waste_percentage := by
  unfold operatorCostsBlock
  repeat' first
  | rfl
  | (intro e t)
  | rw [updOpt_waste_percentage]
  | (dsimp only)
  | split

@[simp] theorem operatorCostsBlock_material_utilization (root : XmlElem) (s : CalculationSummary) :
    (operatorCostsBlock root s).material_utilization = s.material_utilization := by
  unfold operatorCostsBlock
  repeat' first
  | rfl
  | (intro e t)
  | rw [updOpt_material_utilization]
  | (dsimp only)
  | split

@[simp] theorem electricityBlock_article_no (part : XmlElem) (s : CalculationSummary) :
    (electricityBlock part s).article_no = s.article_no := by
  unfold electricityBlock
  repeat' first
  | rfl
  | (intro e t)
  | rw [updOpt_article_no]
  | (dsimp only)
  | split

@[simp] theorem electricityBlock_net_cost_per_piece (part : XmlElem) (s : CalculationSummary) :
    (electricityBlock part s).net_cost_per_piece = s.net_cost_per_piece := by
  unfold electricityBlock
  repeat' first
  | rfl
  | (intro e t)
  | rw [updOpt_net_cost_per_piece]
  | (dsimp only)
  | split

@[simp] theorem electricityBlock_cost_qty_1 (part : XmlElem) (s : CalculationSummary) :
    (electricityBlock part s).cost_qty_1 = s.cost_qty_1 := by
  unfold electricityBlock
  repeat' first
  | rfl
  | (intro e t)
  | rw [updOpt_cost_qty_1]
  | (dsimp only)
  | split

@[simp] theorem electricityBlock_cost_qty_10 (part : XmlElem) (s : CalculationSummary) :
    (electricityBlock part s).cost_qty_10 = s.cost_qty_10 := by
  unfold electricityBlock
  repeat' first
  | rfl
  | (intro e t)
  | rw [updOpt_cost_qty_10]
  | (dsimp only)
  | split

@[simp] theorem electricityBlock_cost_qty_100 (part : XmlElem) (s : CalculationSummary) :
    (electricityBlock part s).cost_qty_100 = s.cost_qty_100 := by
  unfold electricityBlock
  repeat' first
  | rfl
  | (intro e t)
  | rw [updOpt_cost_qty_100]
  | (dsimp only)
  | split

@[simp] theorem electricityBlock_cost_qty_500 (part : XmlElem) (s : CalculationSummary) :
    (electricityBlock part s).cost_qty_500 = s.cost_qty_500 := by
  unfold electricityBlock
  repeat' first
  | rfl
  | (intro e t)
  | rw [updOpt_cost_qty_500]
  | (dsimp only)
  | split

@[simp] theorem electricityBlock_part_dimensions_x (part : XmlElem) (s : CalculationSummary) :
    (electricityBlock part s).part_dimensions_x = s.part_dimensions_x := by
  unfold electricityBlock
  repeat' first
  | rfl
  | (intro e t)
  | rw [updOpt_part_dimensions_x]
  | (dsimp only)
  | split

@[simp] theorem electricityBlock_part_dimensions_y (part : XmlElem) (s : CalculationSummary) :
    (electricityBlock part s).part_dimensions_y = s.part_dimensions_y := by
  unfold electricityBlock
  repeat' first
  | rfl
  | (intro e t)
  | rw [updOpt_part_dimensions_y]
  | (dsimp only)
  | split

@[simp] theorem electricityBlock_oxygen_consumption (part : XmlElem) (s : CalculationSummary) :
    (electricityBlock part s).oxygen_consumption = s.oxygen_consumption := by
  unfold electricityBlock
  repeat' first
  | rfl
  | (intro e t)
  | rw [updOpt_oxygen_consumption]
  | (dsimp only)
  | split

@[simp] theorem electricityBlock_nitrogen_consumption (part : XmlElem) (s : CalculationSummary) :
    (electricityBlock part s).nitrogen_consumption = s.nitrogen_consumption := by
  unfold electricityBlock
  repeat' first
  | rfl
  | (intro e t)
  | rw [updOpt_nitrogen_consumption]
  | (dsimp only)
  | split

@[simp] theorem electricityBlock_electricity_cost_per_kwh (part : XmlElem) (s : CalculationSummary) :
    (electricityBlock part s).electricity_cost_per_kwh = s.electricity_cost_per_kwh := by
  unfold electricityBlock
  repeat' first
  | rfl
  | (intro e t)
  | rw [updOpt_electricity_cost_per_kwh]
  | (dsimp only)
  | split

@[simp] theorem electricityBlock_waste_percentage (part : XmlElem) (s : CalculationSummary) :
    (electricityBlock part s).waste_percentage = s.waste_percentage := by
  unfold electricityBlock
  repeat' first
  | rfl
  | (intro e t)
  | rw [updOpt_waste_percentage]
  | (dsimp only)
  | split

@[simp] theorem electricityBlock_material_utilization (part : XmlElem) (s : CalculationSummary) :
    (electricityBlock part s).material_utilization = s.material_utilization := by
  unfold electricityBlock
  repeat' first
  | rfl
  | (intro e t)
  | rw [updOpt_material_utilization]
  | (dsimp only)
  | split

@[simp] theorem gasBlock_article_no (s : CalculationSummary) :
    (gasBlock s).article_no = s.article_no := by
  unfold gasBlock
  repeat' first
  | rfl
  | (intro e t)
  | rw [updOpt_article_no]
  | (dsimp only)
  | split

@[simp] theorem gasBlock_net_cost_per_piece (s : CalculationSummary) :
    (gasBlock s).net_cost_per_piece = s.net_cost_per_piece := by
  unfold gasBlock
  repeat' first
  | rfl
  | (intro e t)
  | rw [updOpt_net_cost_per_piece]
  | (dsimp only)
  | split

@[simp] theorem gasBlock_cost_qty_1 (s : CalculationSummary) :
    (gasBlock s).cost_qty_1 = s.cost_qty_1 := by
  unfold gasBlock
  repeat' first
  | rfl
  | (intro e t)
  | rw [updOpt_cost_qty_1]
  | (dsimp only)
  | split

@[simp] theorem gasBlock_cost_qty_10 (s : CalculationSummary) :
    (gasBlock s).cost_qty_10 = s.cost_qty_10 := by
  unfold gasBlock
  repeat' first
  | rfl
  | (intro e t)
  | rw [updOpt_cost_qty_10]
  | (dsimp only)
  | split

@[simp] theorem gasBlock_cost_qty_100 (s : CalculationSummary) :
    (gasBlock s).cost_qty_100 = s.cost_qty_100 := by
  unfold gasBlock
  repeat' first
  | rfl
  | (intro e t)
  | rw [updOpt_cost_qty_100]
  | (dsimp only)
  | split

@[simp] theorem gasBlock_cost_qty_500 (s : CalculationSummary) :
    (gasBlock s).cost_qty_500 = s.cost_qty_500 := by
  unfold gasBlock
  repeat' first
  | rfl
  | (intro e t)
  | rw [updOpt_cost_qty_500]
  | (dsimp only)
  | split

@[simp] theorem gasBlock_part_dimensions_x (s : CalculationSummary) :
    (gasBlock s).part_dimensions_x = s.part_dimensions_x := by
  unfold gasBlock
  repeat' first
  | rfl
  | (intro e t)
  | rw [updOpt_part_dimensions_x]
  | (dsimp only)
  | split

@[simp] theorem gasBlock_part_dimensions_y (s : CalculationSummary) :
    (gasBlock s).part_dimensions_y = s.part_dimensions_y := by
  unfold gasBlock
  repeat' first
  | rfl
  | (intro e t)
  | rw [updOpt_part_dimensions_y]
  | (dsimp only)
  | split

@[simp] theorem gasBlock_power_consumption_kwh (s : CalculationSummary) :
    (gasBlock s).power_consumption_kwh = s.power_consumption_kwh := by
  unfold gasBlock
  repeat' first
  | rfl
  | (intro e t)
  | rw [updOpt_power_consumption_kwh]
  | (dsimp only)
  | split

@[simp] theorem gasBlock_electricity_cost_total (s : CalculationSummary) :
    (gasBlock s).electricity_cost_total = s.electricity_cost_total := by
  unfold gasBlock
  repeat' first
  | rfl
  | (intro e t)
  | rw [updOpt_electricity_cost_total]
  | (dsimp only)
  | split

@[simp] theorem gasBlock_electricity_cost_per_kwh (s : CalculationSummary) :
    (gasBlock s).electricity_cost_per_kwh = s.electricity_cost_per_kwh := by
  unfold gasBlock
  repeat' first
  | rfl
  | (intro e t)
  | rw [updOpt_electricity_cost_per_kwh]
  | (dsimp only)
  | split

@[simp] theorem gasBlock_waste_percentage (s : CalculationSummary) :
    (gasBlock s).waste_percentage = s.waste_percentage := by
  unfold gasBlock
  repeat' first
  | rfl
  | (intro e t)
  | rw [updOpt_waste_percentage]
  | (dsimp only)
  | split

@[simp] theorem gasBlock_material_utilization (s : CalculationSummary) :
    (gasBlock s).material_utilization = s.material_utilization := by
  unfold gasBlock
  repeat' first
  | rfl
  | (intro e t)
  | rw [updOpt_material_utilization]
  | (dsimp only)
  | split

@[simp] theorem nestingStage_article_no (root : XmlElem) (s : CalculationSummary) :
    (nestingStage root s).article_no = s.article_no := by
  unfold nestingStage
  repeat' first
  | rfl
  | (intro e t)
  | rw [updOpt_article_no]
  | (dsimp only)
  | split

@[simp] theorem nestingStage_net_cost_per_piece (root : XmlElem) (s : CalculationSummary) :
    (nestingStage root s).net_cost_per_piece = s.net_cost_per_piece := by
  unfold nestingStage
  repeat' first
  | rfl
  | (intro e t)
  | rw [updOpt_net_cost_per_piece]
  | (dsimp only)
  | split

@[simp] theorem nestingStage_cost_qty_1 (root : XmlElem) (s : CalculationSummary) :
    (nestingStage root s).cost_qty_1 = s.cost_qty_1 := by
  unfold nestingStage
  repeat' first
  | rfl
  | (intro e t)
  | rw [updOpt_cost_qty_1]
  | (dsimp only)
  | split

@[simp] theorem nestingStage_cost_qty_10 (root : XmlElem) (s : CalculationSummary) :
    (nestingStage root s).cost_qty_10 = s.cost_qty_10 := by
  unfold nestingStage
  repeat' first
  | rfl
  | (intro e t)
  | rw [updOpt_cost_qty_10]
  | (dsimp only)
  | split

@[simp] theorem nestingStage_cost_qty_100 (root : XmlElem) (s : CalculationSummary) :
    (nestingStage root s).cost_qty_100 = s.cost_qty_100 := by
  unfold nestingStage
  repeat' first
  | rfl
  | (intro e t)
  | rw [updOpt_cost_qty_100]
  | (dsimp only)
  | split

@[simp] theorem nestingStage_cost_qty_500 (root : XmlElem) (s : CalculationSummary) :
    (nestingStage root s).cost_qty_500 = s.cost_qty_500 := by
  unfold nestingStage
  repeat' first
  | rfl
  | (intro e t)
  | rw [updOpt_cost_qty_500]
  | (dsimp only)
  | split

@[simp] theorem nestingStage_part_dimensions_x (root : XmlElem) (s : CalculationSummary) :
    (nestingStage root s).part_dimensions_x = s.part_dimensions_x := by
  unfold nestingStage
  repeat' first
  | rfl
  | (intro e t)
  | rw [updOpt_part_dimensions_x]
  | (dsimp only)
  | split

@[simp] theorem nestingStage_part_dimensions_y (root : XmlElem) (s : CalculationSummary) :
    (nestingStage root s).part_dimensions_y = s.part_dimensions_y := by
  unfold nestingStage
  repeat' first
  | rfl
  | (intro e t)
  | rw [updOpt_part_dimensions_y]
  | (dsimp only)
  | split

@[simp] theorem nestingStage_oxygen_consumption (root : XmlElem) (s : CalculationSummary) :
    (nestingStage root s).oxygen_consumption = s.oxygen_consumption := by
  unfold nestingStage
  repeat' first
  | rfl
  | (intro e t)
  | rw [updOpt_oxygen_consumption]
  | (dsimp only)
  | split

@[simp] theorem nestingStage_nitrogen_consumption (root : XmlElem) (s : CalculationSummary) :
    (nestingStage root s).nitrogen_consumption = s.nitrogen_consumption := by
  unfold nestingStage
  repeat' first
  | rfl
  | (intro e t)
  | rw [updOpt_nitrogen_consumption]
  | (dsimp only)
  | split

@[simp] theorem nestingStage_power_consumption_kwh (root : XmlElem) (s : CalculationSummary) :
    (nestingStage root s).power_consumption_kwh = s.power_consumption_kwh := by
  unfold nestingStage
  repeat' first
  | rfl
  | (intro e t)
  | rw [updOpt_power_consumption_kwh]
  | (dsimp only)
  | split

@[simp] theorem nestingStage_electricity_cost_total (root : XmlElem) (s : CalculationSummary) :
    (nestingStage root s).electricity_cost_total = s.electricity_cost_total := by
  unfold nestingStage
  repeat' first
  | rfl
  | (intro e t)
  | rw [updOpt_electricity_cost_total]
  | (dsimp only)
  | split

@[simp] theorem nestingStage_electricity_cost_per_kwh (root : XmlElem) (s : CalculationSummary) :
    (nestingStage root s).electricity_cost_per_kwh = s.electricity_cost_per_kwh := by
  unfold nestingStage
  repeat' first
  | rfl
  | (intro e t)
  | rw [updOpt_electricity_cost_per_kwh]
  | (dsimp only)
  | split

@[simp] theorem nestingStage_waste_percentage (root : XmlElem) (s : CalculationSummary) :
    (nestingStage root s).waste_percentage = s.waste_percentage := by
  unfold nestingStage
  repeat' first
  | rfl
  | (intro e t)
  | rw [updOpt_waste_percentage]
  | (dsimp only)
  | split

@[simp] theorem nestingStage_material_utilization (root : XmlElem) (s : CalculationSummary) :
    (nestingStage root s).material_utilization = s.material_utilization := by
  unfold nestingStage
  repeat' first
  | rfl
  | (intro e t)
  | rw [updOpt_material_utilization]
  | (dsimp only)
  | split

@[simp] theorem sheetDataStage_article_no (root : XmlElem) (s : CalculationSummary) :
    (sheetDataStage root s).article_no = s.article_no := by
  unfold sheetDataStage
  repeat' first
  | rfl
  | (intro e t)
  | rw [updOpt_article_no]
  | (dsimp only)
  | split

@[simp] theorem sheetDataStage_net_cost_per_piece (root : XmlElem) (s : CalculationSummary) :
    (sheetDataStage root s).net_cost_per_piece = s.net_cost_per_piece := by
  unfold sheetDataStage
  repeat' first
  | rfl
  | (intro e t)
  | rw [updOpt_net_cost_per_piece]
  | (dsimp only)
  | split

@[simp] theorem sheetDataStage_cost_qty_1 (root : XmlElem) (s : CalculationSummary) :
    (sheetDataStage root s).cost_qty_1 = s.cost_qty_1 := by
  unfold sheetDataStage
  repeat' first
  | rfl
  | (intro e t)
  | rw [updOpt_cost_qty_1]
  | (dsimp only)
  | split

@[simp] theorem sheetDataStage_cost_qty_10 (root : XmlElem) (s : CalculationSummary) :
    (sheetDataStage root s).cost_qty_10 = s.cost_qty_10 := by
  unfold sheetDataStage
  repeat' first
  | rfl
  | (intro e t)
  | rw [updOpt_cost_qty_10]
  | (dsimp only)
  | split

@[simp] theorem sheetDataStage_cost_qty_100 (root : XmlElem) (s : CalculationSummary) :
    (sheetDataStage root s).cost_qty_100 = s.cost_qty_100 := by
  unfold sheetDataStage
  repeat' first
  | rfl
  | (intro e t)
  | rw [updOpt_cost_qty_100]
  | (dsimp only)
  | split

@[simp] theorem sheetDataStage_cost_qty_500 (root : XmlElem) (s : CalculationSummary) :
    (sheetDataStage root s).cost_qty_500 = s.cost_qty_500 := by
  unfold sheetDataStage
  repeat' first
  | rfl
  | (intro e t)
  | rw [updOpt_cost_qty_500]
  | (dsimp only)
  | split

@[simp] theorem sheetDataStage_part_dimensions_x (root : XmlElem) (s : CalculationSummary) :
    (sheetDataStage root s).part_dimensions_x = s.part_dimensions_x := by
  unfold sheetDataStage
  repeat' first
  | rfl
  | (intro e t)
  | rw [updOpt_part_dimensions_x]
  | (dsimp only)
  | split

@[simp] theorem sheetDataStage_part_dimensions_y (root : XmlElem) (s : CalculationSummary) :
    (sheetDataStage root s).part_dimensions_y = s.part_dimensions_y := by
  unfold sheetDataStage
  repeat' first
  | rfl
  | (intro e t)
  | rw [updOpt_part_dimensions_y]
  | (dsimp only)
  | split

@[simp] theorem sheetDataStage_oxygen_consumption (root : XmlElem) (s : CalculationSummary) :
    (sheetDataStage root s).oxygen_consumption = s.oxygen_consumption := by
  unfold sheetDataStage
  repeat' first
  | rfl
  | (intro e t)
  | rw [updOpt_oxygen_consumption]
  | (dsimp only)
  | split

@[simp] theorem sheetDataStage_nitrogen_consumption (root : XmlElem) (s : CalculationSummary) :
    (sheetDataStage root s).nitrogen_consumption = s.nitrogen_consumption := by
  unfold sheetDataStage
  repeat' first
  | rfl
  | (intro e t)
  | rw [updOpt_nitrogen_consumption]
  | (dsimp only)
  | split

@[simp] theorem sheetDataStage_power_consumption_kwh (root : XmlElem) (s : CalculationSummary) :
    (sheetDataStage root s).power_consumption_kwh = s.power_consumption_kwh := by
  unfold sheetDataStage
  repeat' first
  | rfl
  | (intro e t)
  | rw [updOpt_power_consumption_kwh]
  | (dsimp only)
  | split

@[simp] theorem sheetDataStage_electricity_cost_total (root : XmlElem) (s : CalculationSummary) :
    (sheetDataStage root s).electricity_cost_total = s.electricity_cost_total := by
  unfold sheetDataStage
  repeat' first
  | rfl
  | (intro e t)
  | rw [updOpt_electricity_cost_total]
  | (dsimp only)
  | split

@[simp] theorem sheetDataStage_electricity_cost_per_kwh (root : XmlElem) (s : CalculationSummary) :
    (sheetDataStage root s).electricity_cost_per_kwh = s.electricity_cost_per_kwh := by
  unfold sheetDataStage
  repeat' first
  | rfl
  | (intro e t)
  | rw [updOpt_electricity_cost_per_kwh]
  | (dsimp only)
  | split

@[simp] theorem sheetDataStage_waste_percentage (root : XmlElem) (s : CalculationSummary) :
    (sheetDataStage root s).waste_percentage = s.waste_percentage := by
  unfold sheetDataStage
  repeat' first
  | rfl
  | (intro e t)
  | rw [updOpt_waste_percentage]
  | (dsimp only)
  | split

@[simp] theorem sheetDataStage_material_utilization (root : XmlElem) (s : CalculationSummary) :
    (sheetDataStage root s).material_utilization = s.material_utilization := by
  unfold sheetDataStage
  repeat' first
  | rfl
  | (intro e t)
  | rw [updOpt_material_utilization]
  | (dsimp only)
  | split

@[simp] theorem wasteStage_article_no (root : XmlElem) (s : CalculationSummary) :
    (wasteStage root s).article_no = s.article_no := by
  unfold wasteStage
  repeat' first
  | rfl
  | (intro e t)
  | rw [updOpt_article_no]
  | (dsimp only)
  | split

@[simp] theorem wasteStage_net_cost_per_piece (root : XmlElem) (s : CalculationSummary) :
    (wasteStage root s).net_cost_per_piece = s.net_cost_per_piece := by
  unfold wasteStage
  repeat' first
  | rfl
  | (intro e t)
  | rw [updOpt_net_cost_per_piece]
  | (dsimp only)
  | split

@[simp] theorem wasteStage_cost_qty_1 (root : XmlElem) (s : CalculationSummary) :
    (wasteStage root s).cost_qty_1 = s.cost_qty_1 := by
  unfold wasteStage
  repeat' first
  | rfl
  | (intro e t)
  | rw [updOpt_cost_qty_1]
  | (dsimp only)
  | split

@[simp] theorem wasteStage_cost_qty_10 (root : XmlElem) (s : CalculationSummary) :
    (wasteStage root s).cost_qty_10 = s.cost_qty_10 := by
  unfold wasteStage
  repeat' first
  | rfl
  | (intro e t)
  | rw [updOpt_cost_qty_10]
  | (dsimp only)
  | split

@[simp] theorem wasteStage_cost_qty_100 (root : XmlElem) (s : CalculationSummary) :
    (wasteStage root s).cost_qty_100 = s.cost_qty_100 := by
  unfold wasteStage
  repeat' first
  | rfl
  | (intro e t)
  | rw [updOpt_cost_qty_100]
  | (dsimp only)
  | split

@[simp] theorem wasteStage_cost_qty_500 (root : XmlElem) (s : CalculationSummary) :
    (wasteStage root s).cost_qty_500 = s.cost_qty_500 := by
  unfold wasteStage
  repeat' first
  | rfl
  | (intro e t)
  | rw [updOpt_cost_qty_500]
  | (dsimp only)
  | split

@[simp] theorem wasteStage_part_dimensions_x (root : XmlElem) (s : CalculationSummary) :
    (wasteStage root s).part_dimensions_x = s.part_dimensions_x := by
  unfold wasteStage
  repeat' first
  | rfl
  | (intro e t)
  | rw [updOpt_part_dimensions_x]
  | (dsimp only)
  | split

@[simp] theorem wasteStage_part_dimensions_y (root : XmlElem) (s : CalculationSummary) :
    (wasteStage root s).part_dimensions_y = s.part_dimensions_y := by
  unfold wasteStage
  repeat' first
  | rfl
  | (intro e t)
  | rw [updOpt_part_dimensions_y]
  | (dsimp only)
  | split

@[simp] theorem wasteStage_oxygen_consumption (root : XmlElem) (s : CalculationSummary) :
    (wasteStage root s).oxygen_consumption = s.oxygen_consumption := by
  unfold wasteStage
  repeat' first
  | rfl
  | (intro e t)
  | rw [updOpt_oxygen_consumption]
  | (dsimp only)
  | split

@[simp] theorem wasteStage_nitrogen_consumption (root : XmlElem) (s : CalculationSummary) :
    (wasteStage root s).nitrogen_consumption = s.nitrogen_consumption := by
  unfold wasteStage
  repeat' first
  | rfl
  | (intro e t)
  | rw [updOpt_nitrogen_consumption]
  | (dsimp only)
  | split

@[simp] theorem wasteStage_power_consumption_kwh (root : XmlElem) (s : CalculationSummary) :
    (wasteStage root s).power_consumption_kwh = s.power_consumption_kwh := by
  unfold wasteStage
  repeat' first
  | rfl
  | (intro e t)
  | rw [updOpt_power_consumption_kwh]
  | (dsimp only)
  | split

@[simp] theorem wasteStage_electricity_cost_total (root : XmlElem) (s : CalculationSummary) :
    (wasteStage root s).electricity_cost_total = s.electricity_cost_total := by
  unfold wasteStage
  repeat' first
  | rfl
  | (intro e t)
  | rw [updOpt_electricity_cost_total]
  | (dsimp only)
  | split

@[simp] theorem wasteStage_electricity_cost_per_kwh (root : XmlElem) (s : CalculationSummary) :
    (wasteStage root s).electricity_cost_per_kwh = s.electricity_cost_per_kwh := by
  unfold wasteStage
  repeat' first
  | rfl
  | (intro e t)
  | rw [updOpt_electricity_cost_per_kwh]
  | (dsimp only)
  | split


/-! Characterization lemmas: what each stage writes into the fields the
claims are about. -/

/-- The part's declared article number (`part.find(".//ArticleNo")`'s text,
`""` when the text is absent), with a fallthrough for a missing node. -/
def declaredArticleNo (part : XmlElem) (dflt : String) : String :=
  match find1 part ["ArticleNo"] with
  | some e => (e.text).getD ""
  | none => dflt

@[simp] theorem articleStage_article_no (part : XmlElem) (s : CalculationSummary) :
    (articleStage part s).article_no = declaredArticleNo part s.article_no := by
  unfold articleStage declaredArticleNo
  cases find1 part ["ArticleNo"] <;> (try dsimp only [updOpt]) <;>
    cases find1 part ["ArticleDescription"] <;> rfl

/-- The primary planar-dimension resolution: `PartInformation`'s `SizeX`,
parsed, and `0.0` when either node is missing. -/
def primaryDimX (part : XmlElem) : ℚ :=
  match find1 part ["PartInformation"] with
  | none => 0
  | some pinfo =>
    match find1 pinfo ["SizeX"] with
    | some e => parse_float_value (some e) 0
    | none => 0

/-- The primary planar-dimension resolution for `SizeY`. -/
def primaryDimY (part : XmlElem) : ℚ :=
  match find1 part ["PartInformation"] with
  | none => 0
  | some pinfo =>
    match find1 pinfo ["SizeY"] with
    | some e => parse_float_value (some e) 0
    | none => 0

@[simp] theorem updOpt_some {β : Type} (e : β)
    (f : β → CalculationSummary → CalculationSummary) (s : CalculationSummary) :
    updOpt (some e) f s = f e s := rfl

@[simp] theorem updOpt_none {β : Type}
    (f : β → CalculationSummary → CalculationSummary) (s : CalculationSummary) :
    updOpt none f s = s := rfl

@[simp] theorem ite_part_dimensions_x (c : Prop) [Decidable c]
    (a b : CalculationSummary) :
    (if c then a else b).part_dimensions_x =
      if c then a.part_dimensions_x else b.part_dimensions_x := by
  split <;> rfl

@[simp] theorem ite_part_dimensions_y (c : Prop) [Decidable c]
    (a b : CalculationSummary) :
    (if c then a else b).part_dimensions_y =
      if c then a.part_dimensions_y else b.part_dimensions_y := by
  split <;> rfl

theorem partInfoStage_dim_x (part : XmlElem) (s : CalculationSummary)
    (h : s.part_dimensions_x = 0) :
    (partInfoStage part s).part_dimensions_x = primaryDimX part := by
  unfold partInfoStage primaryDimX
  cases find1 part ["PartInformation"] with
  | none => exact h
  | some pinfo =>
    simp only [updOpt_some]
    simp [updOpt_part_dimensions_x]
    cases find1 pinfo ["SizeX"] with
    | none => exact h
    | some e => rfl

theorem partInfoStage_dim_y (part : XmlElem) (s : CalculationSummary)
    (h : s.part_dimensions_y = 0) :
    (partInfoStage part s).part_dimensions_y = primaryDimY part := by
  unfold partInfoStage primaryDimY
  cases find1 part ["PartInformation"] with
  | none => exact h
  | some pinfo =>
    simp only [updOpt_some]
    simp [updOpt_part_dimensions_y]
    cases find1 pinfo ["SizeY"] with
    | none => simp [updOpt_part_dimensions_y]; exact h
    | some e => rfl

/-- The fallback never overwrites a nonzero primary width. -/
theorem dimFallbackStage_keep_x (part : XmlElem) (s : CalculationSummary)
    (h : s.part_dimensions_x ≠ 0) :
    (dimFallbackStage part s).part_dimensions_x = s.part_dimensions_x := by
  unfold dimFallbackStage
  split
  · cases find1 part ["ApproxGeometry", "outside", "contour"] with
    | none => rfl
    | some geom =>
      simp only [updOpt_some]
      simp [updOpt_part_dimensions_x]
      cases find1 geom ["parameter_3", "val"] with
      | none => rfl
      | some p3 => simp only [updOpt_some]; rw [if_neg h]
  · rfl

/-- The fallback never overwrites a nonzero primary height. -/
theorem dimFallbackStage_keep_y (part : XmlElem) (s : CalculationSummary)
    (h : s.part_dimensions_y ≠ 0) :
    (dimFallbackStage part s).part_dimensions_y = s.part_dimensions_y := by
  unfold dimFallbackStage
  split
  · cases find1 part ["ApproxGeometry", "outside", "contour"] with
    | none => rfl
    | some geom =>
      simp only [updOpt_some]
      cases find1 geom ["parameter_4", "val"] with
      | none => simp [updOpt_part_dimensions_y]
      | some p4 =>
        simp only [updOpt_some]
        simp [updOpt_part_dimensions_y]
        exact fun h0 => absurd h0 h
  · rfl

/-- The electricity unit cost as the operator block resolves it:
`OrderData/Operator` → `ElectricEnergyCosts/metric_qty`, with a fallthrough
when either node is missing. -/
def opElecUnitCost (root : XmlElem) (dflt : ℚ) : ℚ :=
  match find1 root ["OrderData", "Operator"] with
  | none => dflt
  | some op =>
    match find1 op ["ElectricEnergyCosts", "metric_qty"] with
    | some e => parse_float_value (some e) 0
    | none => dflt

@[simp] theorem operatorCostsBlock_electricity_cost_per_kwh (root : XmlElem)
    (s : CalculationSummary) :
    (operatorCostsBlock root s).electricity_cost_per_kwh =
      opElecUnitCost root s.electricity_cost_per_kwh := by
  unfold operatorCostsBlock opElecUnitCost
  cases find1 root ["OrderData", "Operator"] with
  | none => rfl
  | some op =>
    simp only [updOpt_some]
    simp [updOpt_electricity_cost_per_kwh]
    cases find1 op ["ElectricEnergyCosts", "metric_qty"] <;> rfl

/-- Whether the electricity block's whole input chain (laser machine, both
power ratings, working step, time data, laser time) is present. -/
def elecDataAvailable (part : XmlElem) : Bool :=
  match find1 part ["LaserMachine"] with
  | none => false
  | some lm =>
    match find1 lm ["Power100Percent"] with
    | none => false
    | some _ =>
      match find1 lm ["Power1Percent"] with
      | none => false
      | some _ =>
        match find1 part ["WorkingStep"] with
        | none => false
        | some ws =>
          match find1 ws ["TargetProcessingTimeData"] with
          | none => false
          | some td => (find1 td ["LaserTime"]).isSome

/-- With any link of the input chain missing, the electricity block leaves
both energy and cost untouched. -/
theorem electricityBlock_unavailable (part : XmlElem) (s : CalculationSummary) :
    elecDataAvailable part = false →
    (electricityBlock part s).power_consumption_kwh = s.power_consumption_kwh ∧
      (electricityBlock part s).electricity_cost_total = s.electricity_cost_total := by
  unfold electricityBlock elecDataAvailable
  cases find1 part ["LaserMachine"] with
  | none => exact fun _ => ⟨rfl, rfl⟩
  | some lm =>
    simp only [updOpt_some]
    cases find1 lm ["Power100Percent"] with
    | none => exact fun _ => ⟨rfl, rfl⟩
    | some p100 =>
      simp only [updOpt_some]
      cases find1 lm ["Power1Percent"] with
      | none => exact fun _ => ⟨rfl, rfl⟩
      | some p1 =>
        simp only [updOpt_some]
        cases find1 part ["WorkingStep"] with
        | none => exact fun _ => ⟨rfl, rfl⟩
        | some ws =>
          simp only [updOpt_some]
          cases find1 ws ["TargetProcessingTimeData"] with
          | none => exact fun _ => ⟨rfl, rfl⟩
          | some td =>
            simp only [updOpt_some]
            cases find1 td ["LaserTime"] with
            | none => exact fun _ => ⟨rfl, rfl⟩
            | some lt => intro hfalse; exact absurd hfalse (by simp)

/-- When the block does fire, the electricity cost it writes is exactly the
energy it writes times the unit cost already in the record; when it does not
fire, both stay at their (zero) inputs. -/
theorem electricityBlock_cost_eq (part : XmlElem) (s : CalculationSummary)
    (hp : s.power_consumption_kwh = 0) (he : s.electricity_cost_total = 0) :
    (electricityBlock part s).electricity_cost_total =
      (electricityBlock part s).power_consumption_kwh *
        s.electricity_cost_per_kwh := by
  unfold electricityBlock
  cases find1 part ["LaserMachine"] with
  | none => simp [updOpt_none, hp, he]
  | some lm =>
    simp only [updOpt_some]
    cases find1 lm ["Power100Percent"] with
    | none => simp [updOpt_none, hp, he]
    | some p100 =>
      simp only [updOpt_some]
      cases find1 lm ["Power1Percent"] with
      | none => simp [updOpt_none, hp, he]
      | some p1 =>
        simp only [updOpt_some]
        cases find1 part ["WorkingStep"] with
        | none => simp [updOpt_none, hp, he]
        | some ws =>
          simp only [updOpt_some]
          cases find1 ws ["TargetProcessingTimeData"] with
          | none => simp [updOpt_none, hp, he]
          | some td =>
            simp only [updOpt_some]
            cases find1 td ["LaserTime"] with
            | none => simp [updOpt_none, hp, he]
            | some lt => rfl

/-- Gas-estimate exclusivity at the block level: starting from zero
estimates, at most one of oxygen/nitrogen is written. -/
theorem gasBlock_exclusive (s : CalculationSummary)
    (ho : s.oxygen_consumption = 0) (hn : s.nitrogen_consumption = 0) :
    (gasBlock s).oxygen_consumption = 0 ∨ (gasBlock s).nitrogen_consumption = 0 := by
  unfold gasBlock
  dsimp only
  repeat' split
  all_goals first | exact Or.inl ho | exact Or.inr hn

theorem wasteStage_waste_eq (root : XmlElem) (s : CalculationSummary) :
    (wasteStage root s).waste_percentage =
      (match find1 root ["waste", "value"] with
       | some e => parse_float_value (some e) 0
       | none => s.waste_percentage) := by
  unfold wasteStage
  cases find1 root ["waste", "value"] <;> rfl

theorem wasteStage_util_eq (root : XmlElem) (s : CalculationSummary) :
    (wasteStage root s).material_utilization =
      (match find1 root ["waste", "value"] with
       | some e => 100 - parse_float_value (some e) 0
       | none => s.material_utilization) := by
  unfold wasteStage
  cases find1 root ["waste", "value"] <;> rfl

@[simp] theorem scalePriceStage_cost_qty_1 (part : XmlElem) (s : CalculationSummary) :
    (scalePriceStage part s).cost_qty_1 =
      dictGet (extract_scale_prices part) 1 s.net_cost_per_piece := rfl

@[simp] theorem scalePriceStage_cost_qty_10 (part : XmlElem) (s : CalculationSummary) :
    (scalePriceStage part s).cost_qty_10 =
      dictGet (extract_scale_prices part) 10 0 := rfl

@[simp] theorem scalePriceStage_cost_qty_100 (part : XmlElem) (s : CalculationSummary) :
    (scalePriceStage part s).cost_qty_100 =
      dictGet (extract_scale_prices part) 100 0 := rfl

@[simp] theorem scalePriceStage_cost_qty_500 (part : XmlElem) (s : CalculationSummary) :
    (scalePriceStage part s).cost_qty_500 =
      dictGet (extract_scale_prices part) 500 0 := rfl

/-! Record-level consequences: tracing the characterizations through the
whole of `parse_single_part`. -/

theorem parse_single_part_article (root part : XmlElem) (fn : String) :
    (parse_single_part root part fn).article_no = declaredArticleNo part "" := by
  simp [parse_single_part, calculate_energy_and_gas_consumption, initSummary, emptySummary]

theorem parse_single_part_gas_exclusive (root part : XmlElem) (fn : String) :
    (parse_single_part root part fn).oxygen_consumption = 0 ∨
      (parse_single_part root part fn).nitrogen_consumption = 0 := by
  unfold parse_single_part calculate_energy_and_gas_consumption
  simp only [wasteStage_oxygen_consumption, sheetDataStage_oxygen_consumption,
    nestingStage_oxygen_consumption, wasteStage_nitrogen_consumption,
    sheetDataStage_nitrogen_consumption, nestingStage_nitrogen_consumption]
  exact gasBlock_exclusive _
    (by simp [initSummary, emptySummary]) (by simp [initSummary, emptySummary])

theorem parse_single_part_dim_x (root part : XmlElem) (fn : String)
    (hx : primaryDimX part ≠ 0) :
    (parse_single_part root part fn).part_dimensions_x = primaryDimX part := by
  unfold parse_single_part calculate_energy_and_gas_consumption
  simp only [wasteStage_part_dimensions_x, sheetDataStage_part_dimensions_x,
    nestingStage_part_dimensions_x, gasBlock_part_dimensions_x,
    electricityBlock_part_dimensions_x, operatorCostsBlock_part_dimensions_x,
    scalePriceStage_part_dimensions_x, costStage_part_dimensions_x,
    workingStepStage_part_dimensions_x]
  have h0 : (materialCostStage part (materialStage part (articleStage part
      (rootInfoStage root (initSummary part fn))))).part_dimensions_x
      = 0 := by simp [initSummary, emptySummary]
  have h1 := partInfoStage_dim_x part _ h0
  rw [dimFallbackStage_keep_x _ _ (h1 ▸ hx), h1]

theorem parse_single_part_dim_y (root part : XmlElem) (fn : String)
    (hy : primaryDimY part ≠ 0) :
    (parse_single_part root part fn).part_dimensions_y = primaryDimY part := by
  unfold parse_single_part calculate_energy_and_gas_consumption
  simp only [wasteStage_part_dimensions_y, sheetDataStage_part_dimensions_y,
    nestingStage_part_dimensions_y, gasBlock_part_dimensions_y,
    electricityBlock_part_dimensions_y, operatorCostsBlock_part_dimensions_y,
    scalePriceStage_part_dimensions_y, costStage_part_dimensions_y,
    workingStepStage_part_dimensions_y]
  have h0 : (materialCostStage part (materialStage part (articleStage part
      (rootInfoStage root (initSummary part fn))))).part_dimensions_y
      = 0 := by simp [initSummary, emptySummary]
  have h1 := partInfoStage_dim_y part _ h0
  rw [dimFallbackStage_keep_y _ _ (h1 ▸ hy), h1]

theorem parse_single_part_waste (root part : XmlElem) (fn : String) :
    (parse_single_part root part fn).waste_percentage =
      (match find1 root ["waste", "value"] with
       | some e => parse_float_value (some e) 0
       | none => 0) ∧
    (parse_single_part root part fn).material_utilization =
      (match find1 root ["waste", "value"] with
       | some e => 100 - parse_float_value (some e) 0
       | none => 0) := by
  unfold parse_single_part
  rw [wasteStage_waste_eq, wasteStage_util_eq]
  cases find1 root ["waste", "value"] with
  | none =>
    constructor
    · simp [calculate_energy_and_gas_consumption, initSummary, emptySummary]
    · simp [calculate_energy_and_gas_consumption, initSummary, emptySummary]
  | some e => exact ⟨rfl, rfl⟩

theorem parse_single_part_no_elec_cost (root part : XmlElem) (fn : String)
    (h : opElecUnitCost root 0 = 0) :
    (parse_single_part root part fn).electricity_cost_total = 0 := by
  unfold parse_single_part calculate_energy_and_gas_consumption
  simp only [wasteStage_electricity_cost_total, sheetDataStage_electricity_cost_total,
    nestingStage_electricity_cost_total, gasBlock_electricity_cost_total]
  rw [electricityBlock_cost_eq _ _ (by simp [initSummary, emptySummary]) (by simp [initSummary, emptySummary])]
  rw [operatorCostsBlock_electricity_cost_per_kwh]
  have hz : (scalePriceStage part (costStage part (workingStepStage part
      (dimFallbackStage part (partInfoStage part (materialCostStage part
        (materialStage part (articleStage part (rootInfoStage root (initSummary part fn)))))))))).electricity_cost_per_kwh
      = 0 := by simp [initSummary, emptySummary]
  rw [hz, h, mul_zero]

theorem parse_single_part_elec_unavailable (root part : XmlElem) (fn : String)
    (h : elecDataAvailable part = false) :
    (parse_single_part root part fn).power_consumption_kwh = 0 ∧
      (parse_single_part root part fn).electricity_cost_total = 0 := by
  unfold parse_single_part calculate_energy_and_gas_consumption
  simp only [wasteStage_power_consumption_kwh, sheetDataStage_power_consumption_kwh,
    nestingStage_power_consumption_kwh, gasBlock_power_consumption_kwh,
    wasteStage_electricity_cost_total, sheetDataStage_electricity_cost_total,
    nestingStage_electricity_cost_total, gasBlock_electricity_cost_total]
  obtain ⟨h1, h2⟩ := electricityBlock_unavailable part _ h
  rw [h1, h2]
  constructor
  · simp [initSummary, emptySummary]
  · simp [initSummary, emptySummary]

/-! Document-level structure of `parse_calculation_file`. -/

theorem hasUsefulData_iff (s : CalculationSummary) :
    hasUsefulData s = true ↔ (s.article_no ≠ "" ∨ 0 < s.net_cost_per_piece) := by
  simp [hasUsefulData]

theorem parse_file_loop_eq (root : XmlElem) (fn : String) (ps : List XmlElem) :
    ∀ acc : List CalculationSummary,
      ps.foldl (fun acc part =>
        if isOrderArticle part then acc
        else if hasNoTech part then acc
        else
          let s := parse_single_part root part fn
          if hasUsefulData s then acc ++ [s] else acc) acc =
      acc ++ ((ps.filter (fun p => !isOrderArticle p && !hasNoTech p)).map
        (fun p => parse_single_part root p fn)).filter (fun s => hasUsefulData s) := by
  induction ps with
  | nil => intro acc; simp
  | cons p ps ih =>
    intro acc
    simp only [List.foldl_cons, List.filter_cons]
    by_cases h1 : isOrderArticle p = true
    · simp [h1, ih]
    · by_cases h2 : hasNoTech p = true
      · simp [h1, h2, ih]
      · by_cases h3 : hasUsefulData (parse_single_part root p fn) = true
        · simp [h1, h2, h3, ih]
        · simp [h1, h2, h3, ih]

/-- The loop of `parse_calculation_file` is: keep the non-order,
technology-bearing parts, assemble each, keep the informative records,
in document order. -/
theorem parse_calculation_file_eq (root : XmlElem) (fn : String) :
    parse_calculation_file root fn =
      (((sheetmetalParts root).filter
          (fun p => !isOrderArticle p && !hasNoTech p)).map
        (fun p => parse_single_part root p fn)).filter
        (fun s => hasUsefulData s) := by
  unfold parse_calculation_file
  rw [parse_file_loop_eq]
  simp

/-- Membership characterization of the emitted record list. -/
theorem mem_parse_calculation_file (root : XmlElem) (fn : String)
    (s : CalculationSummary) :
    s ∈ parse_calculation_file root fn ↔
      ∃ part, part ∈ sheetmetalParts root ∧
        isOrderArticle part = false ∧ hasNoTech part = false ∧
        s = parse_single_part root part fn ∧
        (s.article_no ≠ "" ∨ 0 < s.net_cost_per_piece) := by
  rw [parse_calculation_file_eq]
  simp only [List.mem_filter, List.mem_map]
  constructor
  · rintro ⟨⟨part, hpmem, rfl⟩, hdata⟩
    obtain ⟨hp1, hp2⟩ := hpmem
    simp only [Bool.and_eq_true, Bool.not_eq_true'] at hp2
    exact ⟨part, hp1, hp2.1, hp2.2, rfl, (hasUsefulData_iff _).mp hdata⟩
  · rintro ⟨part, hp1, hpo, hpt, rfl, hdata⟩
    exact ⟨⟨part, ⟨hp1, by simp [hpo, hpt]⟩, rfl⟩, (hasUsefulData_iff _).mpr hdata⟩

/-! Scale-price dictionary: the quantity slot holds the cost of the LAST
extracted pair with that quantity, with the caller's fallback otherwise. -/

/-- The cost of the last pair carrying quantity `k`, if any. -/
def lastScaleCost : List (Int × ℚ) → Int → Option ℚ
  | [], _ => none
  | p :: ps, k =>
    match lastScaleCost ps k with
    | some c => some c
    | none => if p.1 = k then some p.2 else none

theorem dictGet_cons (p : Int × ℚ) (d : List (Int × ℚ)) (k : Int) (dflt : ℚ) :
    dictGet (p :: d) k dflt = if p.1 = k then p.2 else dictGet d k dflt := by
  by_cases h : p.1 = k
  · have hb : (p.1 == k) = true := beq_iff_eq.mpr h
    simp [dictGet, List.find?, hb, h]
  · have hb : (p.1 == k) = false := beq_eq_false_iff_ne.mpr h
    simp [dictGet, List.find?, hb, h]

theorem dictGet_insert (k1 : Int) (v : ℚ) (d : List (Int × ℚ)) (k : Int)
    (dflt : ℚ) :
    dictGet (dictInsert k1 v d) k dflt =
      if k1 = k then v else dictGet d k dflt := by
  induction d with
  | nil =>
    by_cases h : k1 = k
    · simp [dictInsert, dictGet_cons, dictGet, List.find?, h]
    · have hb : (k1 == k) = false := beq_eq_false_iff_ne.mpr h
      simp [dictInsert, dictGet_cons, dictGet, List.find?, hb, h]
  | cons p ps ih =>
    by_cases h1 : p.1 = k1
    · show dictGet (if p.1 = k1 then (p.1, v) :: ps else p :: dictInsert k1 v ps) k dflt = _
      rw [if_pos h1, dictGet_cons, dictGet_cons]
      by_cases h : k1 = k
      · simp [h1, h]
      · have hpk : ¬ (p.1, v).1 = k := fun hh => h (h1 ▸ hh)
        rw [if_neg hpk, if_neg h, if_neg (fun hh => h (h1.symm.trans hh))]
    · show dictGet (if p.1 = k1 then (p.1, v) :: ps else p :: dictInsert k1 v ps) k dflt = _
      rw [if_neg h1, dictGet_cons]
      by_cases h2 : p.1 = k
      · have hkk : ¬ k1 = k := fun hh => h1 (h2.trans hh.symm)
        rw [if_pos h2, if_neg hkk, dictGet_cons, if_pos h2]
      · rw [if_neg h2, ih]
        by_cases h : k1 = k
        · rw [if_pos h, if_pos h]
        · rw [if_neg h, if_neg h, dictGet_cons, if_neg h2]

theorem foldl_insert_get (pairs : List (Int × ℚ)) :
    ∀ (d : List (Int × ℚ)) (k : Int) (dflt : ℚ),
      dictGet (pairs.foldl (fun d p => dictInsert p.1 p.2 d) d) k dflt =
        match lastScaleCost pairs k with
        | some c => c
        | none => dictGet d k dflt := by
  induction pairs with
  | nil => intro d k dflt; rfl
  | cons p ps ih =>
    intro d k dflt
    rw [List.foldl_cons, ih]
    cases hps : lastScaleCost ps k with
    | some c => simp [lastScaleCost, hps]
    | none =>
      simp only [lastScaleCost, hps]
      rw [dictGet_insert]
      by_cases h : p.1 = k <;> simp [h]

/-- The assembled dictionary lookup, in terms of the raw pair list. -/
theorem dictGet_extract (part : XmlElem) (k : Int) (dflt : ℚ) :
    dictGet (extract_scale_prices part) k dflt =
      match lastScaleCost (scalePairs part) k with
      | some c => c
      | none => dflt := by
  unfold extract_scale_prices
  rw [foldl_insert_get]
  cases lastScaleCost (scalePairs part) k <;> rfl

theorem parse_single_part_scale (root part : XmlElem) (fn : String) :
    (parse_single_part root part fn).cost_qty_1 =
      (match lastScaleCost (scalePairs part) 1 with
       | some c => c
       | none => (parse_single_part root part fn).net_cost_per_piece) ∧
    (parse_single_part root part fn).cost_qty_10 =
      (match lastScaleCost (scalePairs part) 10 with
       | some c => c
       | none => 0) ∧
    (parse_single_part root part fn).cost_qty_100 =
      (match lastScaleCost (scalePairs part) 100 with
       | some c => c
       | none => 0) ∧
    (parse_single_part root part fn).cost_qty_500 =
      (match lastScaleCost (scalePairs part) 500 with
       | some c => c
       | none => 0) := by
  refine ⟨?_, ?_, ?_, ?_⟩ <;>
    simp [parse_single_part, calculate_energy_and_gas_consumption, dictGet_extract]

/-! The claims. -/

/-- Modelled from the spec: a well-formed `HH:MM:SS` duration string —
exactly three colon-separated, nonempty, all-digit groups. -/
def wellFormedHHMMSS (s : String) : Bool :=
  match splitChar ':' s.data with
  | [h, m, sec] =>
      !h.isEmpty && h.all Char.isDigit && !m.isEmpty && m.all Char.isDigit &&
        !sec.isEmpty && sec.all Char.isDigit
  | _ => false

/-- C4 (amended): the duration normalization returns the zero string for
absent, empty or colon-free input and the input truncated at the first
period for colon-containing input; the result is well-formed `HH:MM:SS`
whenever that truncation is (but a malformed colon-containing input is
returned as-is, not forced to well-formed). -/
theorem claim_C4_duration (t : Option String) :
    (parse_time_string t = "00:00:00" ∨
      (∃ s, t = some s ∧ s.data.contains ':' = true ∧
        parse_time_string t = String.mk (s.data.takeWhile (fun c => c != '.')))) ∧
    (∀ s, t = some s →
      wellFormedHHMMSS (String.mk (s.data.takeWhile (fun c => c != '.'))) = true →
      wellFormedHHMMSS (parse_time_string t) = true) := by
  constructor
  · cases t with
    | none => exact Or.inl rfl
    | some s =>
      by_cases hs : s = ""
      · subst hs; exact Or.inl rfl
      · cases hc : s.data.contains ':' with
        | false =>
          left
          have hc2 : ':' ∉ s.data := by simpa using hc
          simp [parse_time_string, hs, hc2]
        | true =>
          refine Or.inr ⟨s, rfl, hc, ?_⟩
          have hc2 : ':' ∈ s.data := by simpa using hc
          simp [parse_time_string, hs, hc2]
  · intro s heq hwf
    subst heq
    by_cases hs : s = ""
    · subst hs; decide
    · cases hc : s.data.contains ':' with
      | true =>
        have hc2 : ':' ∈ s.data := by simpa using hc
        have hres : parse_time_string (some s) =
            String.mk (s.data.takeWhile (fun c => c != '.')) := by
          simp [parse_time_string, hs, hc2]
        rw [hres]; exact hwf
      | false =>
        have hc2 : ':' ∉ s.data := by simpa using hc
        have hres : parse_time_string (some s) = "00:00:00" := by
          simp [parse_time_string, hs, hc2]
        rw [hres]; decide

/-- C4, counterexample to the claim as stated: input `":"` contains a colon
and no period, so it is returned unchanged — neither well-formed `HH:MM:SS`
nor the zero-duration string. -/
theorem claim_C4_counterexample :
    parse_time_string (some ":") = ":" ∧ wellFormedHHMMSS ":" = false ∧
      (":" : String) ≠ "00:00:00" := by decide

/-- C4, witness: a well-formed laser time with fractional seconds is
normalized to a well-formed `HH:MM:SS` string. -/
theorem claim_C4_witness :
    wellFormedHHMMSS
      (String.mk (("00:30:00.000" : String).data.takeWhile (fun c => c != '.'))) = true ∧
    wellFormedHHMMSS (parse_time_string (some "00:30:00.000")) = true :=
  ⟨by decide, (claim_C4_duration (some "00:30:00.000")).2 "00:30:00.000" rfl (by decide)⟩

/-- C9: decimal parsing is invariant under replacing every comma by a
period, and the caller's default is returned for absent input, empty text
and unparsable text — the coercion never fails. -/
theorem claim_C9_decimal (t : String) (d : ℚ) :
    parse_float_value (some (xml "num" [] (some t) [])) d =
      parse_float_value
        (some (xml "num" []
          (some (String.mk (t.data.map (fun c => if c == ',' then '.' else c)))) [])) d ∧
    parse_float_value none d = d ∧
    parse_float_value (some (xml "num" [] (some "") [])) d = d ∧
    (pyFloatChars (cleanNumericText t) = none →
      parse_float_value (some (xml "num" [] (some t) [])) d = d) := by
  have estep : ∀ u : String,
      parse_float_value (some (xml "num" [] (some u) [])) d =
        if u = "" then d
        else if cleanNumericText u = [] then d
        else
          match pyFloatChars (cleanNumericText u) with
          | some v => v
          | none => d := fun u => rfl
  refine ⟨?_, rfl, rfl, ?_⟩
  · have hclean : cleanNumericText (String.mk
        (t.data.map (fun c => if c == ',' then '.' else c))) = cleanNumericText t := by
      unfold cleanNumericText
      show ((t.data.map _).map _).filter _ = _
      rw [List.map_map]
      have hf : (fun c => if (c == ',') = true then '.' else c) ∘
          (fun c => if (c == ',') = true then '.' else c) =
          (fun c => if (c == ',') = true then '.' else c) := by
        funext c
        by_cases h : c = ',' <;> simp [Function.comp, h]
      rw [hf]
    by_cases ht : t = ""
    · subst ht; rfl
    · have hm : String.mk
          (t.data.map (fun c => if c == ',' then '.' else c)) ≠ "" := by
        intro hh
        apply ht
        have h2 : t.data.map (fun c => if c == ',' then '.' else c) = [] :=
          congrArg String.data hh
        have h3 : t.data = [] := List.map_eq_nil.mp h2
        have h4 : t = String.mk t.data := rfl
        rw [h4, h3]
      rw [estep, estep, hclean, if_neg ht, if_neg hm]
  · intro hnone
    rw [estep]
    by_cases ht : t = ""
    · simp [ht]
    · rw [if_neg ht]
      by_cases hcl : cleanNumericText t = []
      · simp [hcl]
      · rw [if_neg hcl, hnone]

/-- C9, witness: `"12,5"` and `"12.5"` coerce identically, and an
unparsable cleaned string (`"1.2.3"`) yields the caller's default. -/
theorem claim_C9_witness :
    parse_float_value (some (xml "num" [] (some "12,5") [])) 0 =
      parse_float_value (some (xml "num" [] (some "12.5") [])) 0 ∧
    parse_float_value (some (xml "num" [] (some "1.2.3") [])) 7 = 7 :=
  ⟨(claim_C9_decimal "12,5" 0).1,
   (claim_C9_decimal "1.2.3" 7).2.2.2 (by with_unfolding_all decide)⟩

/-! Concrete sample documents for the end-to-end checks and witnesses. -/

/-- The spec's end-to-end scenario part: stainless-coded material
`1.4301-20` of thickness 2 mm, 0.5/4.5 kW power ratings, 30 min laser. -/
def energyPart : XmlElem :=
  xml "Part" [("type", "sheetmetalpart"), ("ID", "1")] none
    [ xml "ArticleNo" [] (some "P-001") [],
      xml "Material" [] none
        [ xml "MaterialName" [] (some "1.4301-20") [],
          xml "MaterialThickness" [] (some "2.0") [] ],
      xml "LaserMachine" [] none
        [ xml "Power100Percent" [] (some "4.5") [],
          xml "Power1Percent" [] (some "0.5") [] ],
      xml "WorkingStep" [] none
        [ xml "TargetProcessingTimeData" [] none
            [ xml "LaserTime" [] (some "00:30:00.000") [] ] ] ]

/-- The scenario document: the part above plus an operator section with a
0.20 electricity unit cost. -/
def energyDoc : XmlElem :=
  xml "Calculation" [] none
    [ xml "OrderData" [] none
        [ xml "Operator" [] none
            [ xml "ElectricEnergyCosts" [] none
                [ xml "metric_qty" [] (some "0.20") [] ] ] ],
      energyPart ]

/-- The same part in a document with no operator section at all. -/
def noElecDoc : XmlElem :=
  xml "Calculation" [] none [ energyPart ]

/-- A part with a laser time but no `LaserMachine` power ratings. -/
def noPowerPart : XmlElem :=
  xml "Part" [("type", "sheetmetalpart"), ("ID", "1")] none
    [ xml "ArticleNo" [] (some "P-004") [],
      xml "WorkingStep" [] none
        [ xml "TargetProcessingTimeData" [] none
            [ xml "LaserTime" [] (some "00:30:00.000") [] ] ] ]

def noPowerDoc : XmlElem :=
  xml "Calculation" [] none [ noPowerPart ]

/-- A non-informative stub part: no article number, no cost. -/
def stubPart : XmlElem :=
  xml "Part" [("type", "sheetmetalpart"), ("ID", "1")] none
    [ xml "Material" [] none [ xml "MaterialName" [] (some "S235JR") [] ] ]

/-- An informative sibling part. -/
def goodPart : XmlElem :=
  xml "Part" [("type", "sheetmetalpart"), ("ID", "2")] none
    [ xml "ArticleNo" [] (some "P-002") [] ]

/-- A document holding the stub and the informative part, in that order. -/
def mixedDoc : XmlElem :=
  xml "Calculation" [] none [ stubPart, goodPart ]

/-- A part whose primary dimensions (5 × 6) conflict with the
approximate-geometry fallback parameters (7 × 8). -/
def dimPart : XmlElem :=
  xml "Part" [("type", "sheetmetalpart"), ("ID", "1")] none
    [ xml "ArticleNo" [] (some "P-010") [],
      xml "PartInformation" [] none
        [ xml "SizeX" [] (some "5.0") [], xml "SizeY" [] (some "6.0") [] ],
      xml "ApproxGeometry" [] none
        [ xml "outside" [] none
            [ xml "contour" [] none
                [ xml "parameter_3" [] none [ xml "val" [] (some "7.0") [] ],
                  xml "parameter_4" [] none [ xml "val" [] (some "8.0") [] ] ] ] ] ]

def dimDoc : XmlElem :=
  xml "Calculation" [] none [ dimPart ]

/-- A part with a quantity-1 scale price of 3.45 conflicting with a generic
net cost per piece of 2.00. -/
def scalePart : XmlElem :=
  xml "Part" [("type", "sheetmetalpart"), ("ID", "1")] none
    [ xml "ArticleNo" [] (some "P-020") [],
      xml "SalesPrices" [] none
        [ xml "OrderPrice" [] none
            [ xml "NetcostsAPiece" [] (some "2.00") [],
              xml "GrosscostsAPiece" [] (some "2.40") [] ] ],
      xml "ScalePriceEntry" [] none
        [ xml "Quantity" [] (some "1") [],
          xml "NetcostsAPiece" [] (some "3.45") [] ] ]

def scaleDoc : XmlElem :=
  xml "Calculation" [] none [ scalePart ]

/-- A document carrying a `waste/value` of 25 %. -/
def wasteDoc : XmlElem :=
  xml "Calculation" [] none
    [ goodPart, xml "waste" [] none [ xml "value" [] (some "25") [] ] ]

/-- The waste element of `wasteDoc`, as `find1` returns it. -/
def wasteValueElem : XmlElem := xml "value" [] (some "25") []

/-- C1: the end-to-end scenario — the single emitted record has laser time
`00:30:00` (0.5 h), electricity consumption (0.5+4.5)/2 × 0.5 = 1.25 kWh,
electricity cost 1.25 × 0.20 = 0.25, and — the material being
stainless-classified via the `"1.43"` substring — nitrogen consumption
clamp(2 × 0.3, 0.5, 3) × 0.5 = 0.3 Nm³, with no oxygen estimated. -/
theorem claim_C1_energy_scenario :
    (parse_calculation_file energyDoc "scenario.cprj").length = 1 ∧
    ((parse_calculation_file energyDoc "scenario.cprj").headD emptySummary).laser_time
      = "00:30:00" ∧
    time_string_to_hours
      ((parse_calculation_file energyDoc "scenario.cprj").headD emptySummary).laser_time
      = 1 / 2 ∧
    ((parse_calculation_file energyDoc "scenario.cprj").headD emptySummary).electricity_cost_per_kwh
      = 1 / 5 ∧
    ((parse_calculation_file energyDoc "scenario.cprj").headD emptySummary).power_consumption_kwh
      = 5 / 4 ∧
    ((parse_calculation_file energyDoc "scenario.cprj").headD emptySummary).electricity_cost_total
      = 1 / 4 ∧
    hasSub "1.43".data
      ((parse_calculation_file energyDoc "scenario.cprj").headD emptySummary).material_name.data
      = true ∧
    ((parse_calculation_file energyDoc "scenario.cprj").headD emptySummary).nitrogen_consumption
      = 3 / 10 ∧
    ((parse_calculation_file energyDoc "scenario.cprj").headD emptySummary).oxygen_consumption
      = 0 := by
  with_unfolding_all decide

/-- A list's `headD` is a member whenever the list is nonempty. -/
theorem headD_mem_of_length_pos {α : Type} {l : List α} (h : 0 < l.length)
    (d : α) : l.headD d ∈ l := by
  cases l with
  | nil => simp at h
  | cons a as => exact List.mem_cons_self a as

/-- An order pseudo-part (its article number an order synonym) next to an
ordinary part. -/
def orderPart : XmlElem :=
  xml "Part" [("type", "sheetmetalpart"), ("ID", "0")] none
    [ xml "ArticleNo" [] (some "Order") [] ]

def orderDoc : XmlElem :=
  xml "Calculation" [] none [ orderPart, goodPart ]

/-- C2: gas-estimate exclusivity — every record the pipeline emits, from any
document, has zero estimated oxygen consumption or zero estimated nitrogen
consumption. -/
theorem claim_C2_gas_exclusive (doc : XmlElem) (fn : String)
    (s : CalculationSummary) (hs : s ∈ parse_calculation_file doc fn) :
    s.oxygen_consumption = 0 ∨ s.nitrogen_consumption = 0 := by
  obtain ⟨part, -, -, -, rfl, -⟩ := (mem_parse_calculation_file doc fn s).mp hs
  exact parse_single_part_gas_exclusive doc part fn

theorem claim_C2_witness :
    ((parse_calculation_file energyDoc "w2.cprj").headD emptySummary).oxygen_consumption
        = 0 ∨
      ((parse_calculation_file energyDoc "w2.cprj").headD emptySummary).nitrogen_consumption
        = 0 :=
  claim_C2_gas_exclusive energyDoc "w2.cprj" _
    (headD_mem_of_length_pos (by with_unfolding_all decide) emptySummary)

/-- C3: a record reaches the output only if, after full assembly, it has a
non-empty article number or a strictly positive net cost; any candidate part
passing the order/technology skip tests whose assembled record has that data
IS emitted; and dropping a non-informative stub does not stop the sibling
parts of the same document from being emitted (concrete skip-and-continue
instance: of `mixedDoc`'s two parts only the informative one survives). -/
theorem claim_C3_emission (doc : XmlElem) (fn : String) (s : CalculationSummary) :
    (s ∈ parse_calculation_file doc fn →
      s.article_no ≠ "" ∨ 0 < s.net_cost_per_piece) ∧
    (∀ part, part ∈ sheetmetalParts doc → isOrderArticle part = false →
      hasNoTech part = false →
      ((parse_single_part doc part fn).article_no ≠ "" ∨
        0 < (parse_single_part doc part fn).net_cost_per_piece) →
      parse_single_part doc part fn ∈ parse_calculation_file doc fn) ∧
    parse_calculation_file mixedDoc "mixed.cprj" =
      [parse_single_part mixedDoc goodPart "mixed.cprj"] := by
  refine ⟨?_, ?_, ?_⟩
  · intro hs
    obtain ⟨part, -, -, -, rfl, hdata⟩ := (mem_parse_calculation_file doc fn s).mp hs
    exact hdata
  · intro part hp ho ht hdata
    exact (mem_parse_calculation_file doc fn _).mpr ⟨part, hp, ho, ht, rfl, hdata⟩
  · with_unfolding_all rfl

theorem claim_C3_witness :
    (((parse_calculation_file mixedDoc "w3.cprj").headD emptySummary).article_no ≠ "" ∨
      0 < ((parse_calculation_file mixedDoc "w3.cprj").headD emptySummary).net_cost_per_piece) ∧
    parse_single_part mixedDoc goodPart "w3.cprj" ∈
      parse_calculation_file mixedDoc "w3.cprj" :=
  ⟨(claim_C3_emission mixedDoc "w3.cprj" _).1
      (headD_mem_of_length_pos (by with_unfolding_all decide) emptySummary),
   (claim_C3_emission mixedDoc "w3.cprj" emptySummary).2.1 goodPart
      (by rw [show sheetmetalParts mixedDoc = [stubPart, goodPart] from by
            with_unfolding_all rfl]
          exact List.mem_cons_of_mem _ (List.mem_cons_self _ _))
      (by with_unfolding_all decide) (by with_unfolding_all decide)
      (Or.inl (by with_unfolding_all decide))⟩

/-- C5: the approximate-geometry contour fallback is inert whenever the
primary `PartInformation` resolution of a dimension is nonzero — the emitted
record keeps the primary value for that dimension, whatever conflicting
contour parameters the part carries. -/
theorem claim_C5_dim_fallback (doc part : XmlElem) (fn : String) :
    (primaryDimX part ≠ 0 →
      (parse_single_part doc part fn).part_dimensions_x = primaryDimX part) ∧
    (primaryDimY part ≠ 0 →
      (parse_single_part doc part fn).part_dimensions_y = primaryDimY part) :=
  ⟨parse_single_part_dim_x doc part fn, parse_single_part_dim_y doc part fn⟩

theorem claim_C5_witness :
    primaryDimX dimPart = 5 ∧ primaryDimY dimPart = 6 ∧
    (parse_single_part dimDoc dimPart "w5.cprj").part_dimensions_x =
      primaryDimX dimPart ∧
    (parse_single_part dimDoc dimPart "w5.cprj").part_dimensions_y =
      primaryDimY dimPart :=
  ⟨by with_unfolding_all decide, by with_unfolding_all decide,
   (claim_C5_dim_fallback dimDoc dimPart "w5.cprj").1 (by with_unfolding_all decide),
   (claim_C5_dim_fallback dimDoc dimPart "w5.cprj").2 (by with_unfolding_all decide)⟩

/-- C6: records come only from parts passing the order-synonym and
no-technology skip tests, and in consequence no emitted record's article
number lowercases to one of the order-placeholder synonyms. -/
theorem claim_C6_no_order_parts (doc : XmlElem) (fn : String) :
    parse_calculation_file doc fn =
      (((sheetmetalParts doc).filter
          (fun p => !isOrderArticle p && !hasNoTech p)).map
        (fun p => parse_single_part doc p fn)).filter
        (fun s => hasUsefulData s) ∧
    ∀ s ∈ parse_calculation_file doc fn,
      toLowerStr s.article_no ∉ (["order", "pedido", "auftrag"] : List String) := by
  refine ⟨parse_calculation_file_eq doc fn, ?_⟩
  intro s hs
  obtain ⟨part, -, hord, -, rfl, -⟩ := (mem_parse_calculation_file doc fn s).mp hs
  rw [parse_single_part_article]
  unfold isOrderArticle at hord
  unfold declaredArticleNo
  cases hfind : find1 part ["ArticleNo"] with
  | none => with_unfolding_all decide
  | some e =>
    rw [hfind] at hord
    dsimp only
    simp at hord
    simp [hord.1, hord.2.1, hord.2.2]

theorem claim_C6_witness :
    (parse_calculation_file orderDoc "w6.cprj").length = 1 ∧
    toLowerStr ((parse_calculation_file orderDoc "w6.cprj").headD emptySummary).article_no
      ∉ (["order", "pedido", "auftrag"] : List String) :=
  ⟨by with_unfolding_all decide,
   (claim_C6_no_order_parts orderDoc "w6.cprj").2 _
     (headD_mem_of_length_pos (by with_unfolding_all decide) emptySummary)⟩

/-- C7: the quantity-1 cost slot of every record equals the cost of the
last scale-price entry for quantity 1 when one exists, and the record's net
cost per piece otherwise; the quantity-10/100/500 slots equal their entries
when present and 0 otherwise. Concretely, `scalePart`'s `3.45` quantity-1
entry overrides its `2.00` net cost, and its missing quantity-10 entry
defaults to 0. -/
theorem claim_C7_scale_slots (doc part : XmlElem) (fn : String) :
    ((parse_single_part doc part fn).cost_qty_1 =
      (match lastScaleCost (scalePairs part) 1 with
       | some c => c
       | none => (parse_single_part doc part fn).net_cost_per_piece) ∧
     (parse_single_part doc part fn).cost_qty_10 =
      (match lastScaleCost (scalePairs part) 10 with
       | some c => c
       | none => 0) ∧
     (parse_single_part doc part fn).cost_qty_100 =
      (match lastScaleCost (scalePairs part) 100 with
       | some c => c
       | none => 0) ∧
     (parse_single_part doc part fn).cost_qty_500 =
      (match lastScaleCost (scalePairs part) 500 with
       | some c => c
       | none => 0)) ∧
    ((parse_calculation_file scaleDoc "scale.cprj").headD emptySummary).net_cost_per_piece
        = 2 ∧
    ((parse_calculation_file scaleDoc "scale.cprj").headD emptySummary).cost_qty_1
        = 69 / 20 ∧
    ((parse_calculation_file scaleDoc "scale.cprj").headD emptySummary).cost_qty_10
        = 0 :=
  ⟨parse_single_part_scale doc part fn,
   by with_unfolding_all decide, by with_unfolding_all decide,
   by with_unfolding_all decide⟩

/-- C8 (amended): the electricity COST of every record is zero whenever the
document's operator section resolves no electricity unit cost, and both the
energy and the cost stay zero whenever a power rating or the laser time is
missing; but — contrary to the claim — the energy (kWh) itself is computed
from the power ratings and laser time alone, with no unit cost required. -/
theorem claim_C8_electricity (root part : XmlElem) (fn : String) :
    (opElecUnitCost root 0 = 0 →
      (parse_single_part root part fn).electricity_cost_total = 0) ∧
    (elecDataAvailable part = false →
      (parse_single_part root part fn).power_consumption_kwh = 0 ∧
      (parse_single_part root part fn).electricity_cost_total = 0) :=
  ⟨parse_single_part_no_elec_cost root part fn,
   parse_single_part_elec_unavailable root part fn⟩

theorem claim_C8_counterexample :
    opElecUnitCost noElecDoc 0 = 0 ∧
    (parse_calculation_file noElecDoc "c8.cprj").length = 1 ∧
    ((parse_calculation_file noElecDoc "c8.cprj").headD emptySummary).power_consumption_kwh
        = 5 / 4 ∧
    ((parse_calculation_file noElecDoc "c8.cprj").headD emptySummary).electricity_cost_total
        = 0 := by
  with_unfolding_all decide

theorem claim_C8_witness :
    (parse_single_part noElecDoc energyPart "w8.cprj").electricity_cost_total = 0 ∧
    ((parse_single_part noPowerDoc noPowerPart "w8.cprj").power_consumption_kwh = 0 ∧
     (parse_single_part noPowerDoc noPowerPart "w8.cprj").electricity_cost_total = 0) :=
  ⟨(claim_C8_electricity noElecDoc energyPart "w8.cprj").1
      (by with_unfolding_all decide),
   (claim_C8_electricity noPowerDoc noPowerPart "w8.cprj").2
      (by with_unfolding_all decide)⟩

/-- C10: material utilization is derived, never read — when the document's
`waste/value` node resolves, every record's waste percentage is its parsed
value and the material utilization is exactly `100` minus that waste
percentage; when the node is absent both fields stay `0`. -/
theorem claim_C10_utilization (doc part : XmlElem) (fn : String) :
    (∀ e, find1 doc ["waste", "value"] = some e →
      (parse_single_part doc part fn).waste_percentage =
        parse_float_value (some e) 0 ∧
      (parse_single_part doc part fn).material_utilization =
        100 - (parse_single_part doc part fn).waste_percentage) ∧
    (find1 doc ["waste", "value"] = none →
      (parse_single_part doc part fn).waste_percentage = 0 ∧
      (parse_single_part doc part fn).material_utilization = 0) := by
  have h := parse_single_part_waste doc part fn
  constructor
  · intro e he
    rw [he] at h
    exact ⟨h.1, by rw [h.2, h.1]⟩
  · intro he
    rw [he] at h
    exact ⟨h.1, h.2⟩

theorem claim_C10_witness :
    ((parse_single_part wasteDoc goodPart "w10.cprj").waste_percentage = 25 ∧
     (parse_single_part wasteDoc goodPart "w10.cprj").material_utilization =
       100 - (parse_single_part wasteDoc goodPart "w10.cprj").waste_percentage) ∧
    ((parse_single_part noElecDoc energyPart "w10.cprj").waste_percentage = 0 ∧
     (parse_single_part noElecDoc energyPart "w10.cprj").material_utilization = 0) :=
  ⟨⟨by with_unfolding_all decide,
    ((claim_C10_utilization wasteDoc goodPart "w10.cprj").1 wasteValueElem
      (by with_unfolding_all rfl)).2⟩,
   (claim_C10_utilization noElecDoc energyPart "w10.cprj").2
      (by with_unfolding_all rfl)⟩
